import Mathlib

/-!
Shallow embedding of `src/mt_provider_deepl/translator.py` (class `DeepLTranslator`)
together with the pieces of the host framework (`mt_providers`) that the adapter
relies on, modelled from the spec where the framework code is not part of src.

Conventions of the embedding:
* Python strings are Lean `String`s; `len(text)` is `String.length` (both count
  unicode code points); `text.strip()`-emptiness is "every character is python
  whitespace" on `String.data`.
* Python exceptions are values of `PyError`; a Python function that may raise
  is embedded as a function into `Except PyError _`.
* The remote service (vendor client / HTTP POST) is an oracle parameter; every
  operation additionally returns the list of network calls it dispatched, so
  "no network call" and "exactly one call carrying exactly these texts" are
  statements about that list.
-/

namespace DeepL

/-- Status of a translation response (host framework `TranslationStatus`). -/
inductive TranslationStatus where
  | SUCCESS
  | ERROR
deriving Repr, DecidableEq

/-- Configuration record (host framework `TranslationConfig`): `api_key`,
`timeout` (seconds), optional `endpoint` override.  `endpoint = some ""` models
a present-but-empty (falsy) attribute. -/
structure TranslationConfig where
  api_key : String
  timeout : Nat
  endpoint : Option String
deriving Repr, DecidableEq

/-- Metadata attached to successful responses (translator.py lines 177-183).
The constant float `confidence: 1.0` is omitted from the model. -/
structure ResponseMetadata where
  detected_language : String
  provider : String
  model : String
  billed_characters : Nat
deriving Repr, DecidableEq

/-- Uniform response envelope (host framework `TranslationResponse`). -/
structure TranslationResponse where
  translated_text : String
  status : TranslationStatus
  source_lang : String
  target_lang : String
  char_count : Nat
  metadata : Option ResponseMetadata
  error : Option String
deriving Repr, DecidableEq

/-- Modelled from the spec: the host framework's response constructor
`BaseTranslationProvider._create_response` (package `mt_providers`, not in src).
Spec section 6: "a base response constructor accepting
(translated_text, source_lang, target_lang, char_count, metadata?, error?)";
spec section 3: status is SUCCESS | ERROR with `error` "present only when
status is ERROR". -/
def create_response (translated_text source_lang target_lang : String)
    (char_count : Nat) (metadata : Option ResponseMetadata)
    (error : Option String) : TranslationResponse :=
  { translated_text := translated_text
    status := if error.isSome then .ERROR else .SUCCESS
    source_lang := source_lang
    target_lang := target_lang
    char_count := char_count
    metadata := metadata
    error := error }

/-- Python exceptions that appear in translator.py. -/
inductive PyError where
  | deepLException (msg : String)
  | clientError (msg : String)
  | valueError (msg : String)
  | translationError (msg : String)
  | keyError (key : Nat)
  | indexError (msg : String)
  | configurationError (msg : String)
deriving Repr, DecidableEq

/-- `str(e)` for the modelled exceptions. -/
def excStr : PyError → String
  | .deepLException m => m
  | .clientError m => m
  | .valueError m => m
  | .translationError m => m
  | .keyError k => toString k
  | .indexError m => m
  | .configurationError m => m

/-- Python whitespace characters stripped by `str.strip()`. -/
def isPyWhitespace (c : Char) : Bool :=
  c == ' ' || c == '\t' || c == '\n' || c == '\r' || c == '\x0b' || c == '\x0c'

/-- `not text.strip()`: true iff every character of the string is whitespace
(so also for the empty string). -/
def isBlank (s : String) : Bool :=
  s.data.all isPyWhitespace

/-- `DeepLTranslator.max_chunk_size` (line 24). -/
def max_chunk_size : Nat := 30000

/-- `_is_free_api_key` (lines 38-40): `api_key.endswith(":fx")`, stated on
the character sequence. -/
def is_free_api_key (api_key : String) : Bool :=
  [':', 'f', 'x'].isSuffixOf api_key.data

/-- `_get_api_endpoint` (lines 42-46), as a function of the configuration
(the Python reads `self.is_free_api` computed in `__init__`). -/
def get_api_endpoint (cfg : TranslationConfig) : String :=
  if is_free_api_key cfg.api_key then "https://api-free.deepl.com"
  else "https://api.deepl.com"

/-- Server URL used to build the vendor client (`client` property, lines
48-60): the configuration's `endpoint`, when present and truthy, takes
precedence over the derived base URL (`endpoint or self.base_url`). -/
def client_server_url (cfg : TranslationConfig) : String :=
  match cfg.endpoint with
  | some e => if e = "" then get_api_endpoint cfg else e
  | none => get_api_endpoint cfg

/-- URL used by the async operations (lines 345 and 436): built from
`self.base_url` alone; the `endpoint` override is not consulted. -/
def async_post_url (cfg : TranslationConfig) : String :=
  get_api_endpoint cfg ++ "/v2/translate"

/-- Adapter state recorded by `__init__` (lines 26-36). Construction only
records configuration; it performs no validation. -/
structure DeepLTranslator where
  config : TranslationConfig
  is_free_api : Bool
  base_url : String
deriving Repr, DecidableEq

/-- `__init__` (lines 26-36): total on every configuration, including an
empty API key. -/
def mkDeepLTranslator (cfg : TranslationConfig) : DeepLTranslator :=
  { config := cfg
    is_free_api := is_free_api_key cfg.api_key
    base_url := get_api_endpoint cfg }

/-- `_get_root_lang_code` (lines 70-73): when the code contains a hyphen,
`lang_code.split('-')[0].lower()` (the part before the first hyphen,
lower-cased); otherwise the code is returned unchanged. -/
def get_root_lang_code (lang_code : String) : String :=
  if lang_code.data.contains '-' then
    String.mk ((lang_code.data.takeWhile (fun c => c != '-')).map Char.toLower)
  else lang_code

/-- The static table of `_map_language_code` (lines 79-120). -/
def supported_language_map : List (String × String) :=
  [("ar", "AR"), ("bg", "BG"), ("cs", "CS"), ("da", "DA"), ("de", "DE"),
   ("el", "EL"), ("en", "EN"), ("en-GB", "EN-GB"), ("en-US", "EN-US"),
   ("es", "ES"), ("es-419", "ES-419"), ("et", "ET"), ("fi", "FI"),
   ("fr", "FR"), ("he", "HE"), ("hu", "HU"), ("id", "ID"), ("it", "IT"),
   ("ja", "JA"), ("ko", "KO"), ("lt", "LT"), ("lv", "LV"), ("nb", "NB"),
   ("nl", "NL"), ("pl", "PL"), ("pt", "PT"), ("pt-BR", "PT-BR"),
   ("pt-PT", "PT-PT"), ("ro", "RO"), ("ru", "RU"), ("sk", "SK"),
   ("sl", "SL"), ("sv", "SV"), ("th", "TH"), ("tr", "TR"), ("uk", "UK"),
   ("vi", "VI"), ("zh", "ZH"), ("zh-HANS", "ZH-HANS"), ("zh-HANT", "ZH-HANT")]

/-- `_map_language_code` (lines 76-125): exact dictionary lookup; raises
`ValueError('Unsupported Language')` when the code is absent. -/
def map_language_code (lang_code : String) : Except PyError String :=
  match supported_language_map.lookup lang_code with
  | some v => .ok v
  | none => .error (.valueError "Unsupported Language")

/-- Source-language mapping block shared by all four operations (e.g. lines
148-152): when the source is not `"auto"`, the root code is derived
unconditionally and looked up; `"auto"` bypasses mapping (`source_mapped =
None`). -/
def map_source_code (source_lang : String) : Except PyError (Option String) :=
  if source_lang != "auto" then
    (map_language_code (get_root_lang_code source_lang)).map some
  else .ok none

/-- Target-language mapping block shared by all four operations (e.g. lines
153-158): exact lookup first; on `ValueError`, retry with the root code. -/
def map_target_code (target_lang : String) : Except PyError String :=
  match map_language_code target_lang with
  | .ok v => .ok v
  | .error _ => map_language_code (get_root_lang_code target_lang)

/-- Result object returned by the vendor client `translate_text` (its `.text`
and `.detected_source_lang` attributes; a falsy `detected_source_lang` is
`none` or `some ""`). -/
structure DeepLResult where
  text : String
  detected_source_lang : Option String
deriving Repr, DecidableEq

/-- One entry of the `translations` array of the HTTP API's JSON response
(`detected_source_language` is an optional key). -/
structure AsyncTranslation where
  text : String
  detected_source_language : Option String
deriving Repr, DecidableEq

/-- A call to the vendor client `translate_text` (sync path): the texts sent,
the mapped source (None for auto-detect) and the mapped target. The single
`translate` sends a one-element list. -/
structure ClientCall where
  texts : List String
  source_lang : Option String
  target_lang : String
deriving Repr, DecidableEq

/-- An HTTP POST dispatched by the async path: URL and JSON body content
(`source_lang` key present only when a mapped source exists). -/
structure HttpCall where
  url : String
  texts : List String
  source_lang : Option String
  target_lang : String
deriving Repr, DecidableEq

/-- Error message of the `TranslationError` raised for over-long texts
(lines 141-146 and 318-321). -/
def length_error_msg (n : Nat) : String :=
  "Text length (" ++ toString n ++ ") exceeds DeepL's maximum of "
    ++ toString max_chunk_size ++ " characters"

/-- The sync except-blocks (lines 186-203, 279-302): `deepl.DeepLException`
is prefixed with "DeepL API error: "; every other exception is reported as
`str(e)`. -/
def sync_catch_msg : PyError → String
  | .deepLException m => "DeepL API error: " ++ m
  | e => excStr e

/-- The async except-blocks (lines 371-388, 472-495): `aiohttp.ClientError`
is prefixed with "DeepL API error: "; every other exception is `str(e)`. -/
def async_catch_msg : PyError → String
  | .clientError m => "DeepL API error: " ++ m
  | e => excStr e

/-- Detected language of the sync paths (lines 167-170 and 256): the result's
`detected_source_lang` lower-cased when truthy, else the caller's source. -/
def detected_of_sync (o : Option String) (source_lang : String) : String :=
  match o with
  | some d => if d = "" then source_lang else d.toLower
  | none => source_lang

/-- Successful response shaping of the sync paths (lines 172-184, 258-270):
`char_count` and `billed_characters` are the length of the original input. -/
def mk_sync_success (r : DeepLResult) (original source_lang target_lang : String) :
    TranslationResponse :=
  create_response r.text source_lang target_lang original.length
    (some { detected_language := detected_of_sync r.detected_source_lang source_lang
            provider := "deepl"
            model := "deepl-api"
            billed_characters := original.length })
    none

/-- Detected language of the async paths (lines 355 and 449):
`translation.get("detected_source_language", source_lang).lower()` — note the
fallback is lower-cased too. -/
def detected_of_async (o : Option String) (source_lang : String) : String :=
  (o.getD source_lang).toLower

/-- Successful response shaping of the async paths (lines 357-369, 451-463). -/
def mk_async_success (tr : AsyncTranslation) (original source_lang target_lang : String) :
    TranslationResponse :=
  create_response tr.text source_lang target_lang original.length
    (some { detected_language := detected_of_async tr.detected_source_language source_lang
            provider := "deepl"
            model := "deepl-api"
            billed_characters := original.length })
    none

/-- The zero-length SUCCESS response used for empty/whitespace-only inputs
(`self._create_response("", source_lang, target_lang, 0)`). -/
def empty_response (source_lang target_lang : String) : TranslationResponse :=
  create_response "" source_lang target_lang 0 none none

/-- The per-text ERROR response of the sync bulk except-blocks
(lines 279-302). -/
def sync_error_response (text source_lang target_lang : String) (e : PyError) :
    TranslationResponse :=
  create_response "" source_lang target_lang text.length none (some (sync_catch_msg e))

/-- The per-text ERROR response of the async except-blocks
(lines 371-388, 472-495). -/
def async_error_response (text source_lang target_lang : String) (e : PyError) :
    TranslationResponse :=
  create_response "" source_lang target_lang text.length none (some (async_catch_msg e))

/-- `translate` (lines 127-203), with the vendor client as oracle. Returns
the response and the list of client calls dispatched. -/
def translate (remote : ClientCall → Except PyError DeepLResult)
    (text source_lang target_lang : String) :
    TranslationResponse × List ClientCall :=
  if isBlank text then
    (create_response "" source_lang target_lang 0 none none, [])
  else if max_chunk_size < text.length then
    -- raise TranslationError(...), caught by `except Exception` → str(e)
    (sync_error_response text source_lang target_lang
      (.translationError (length_error_msg text.length)), [])
  else
    match map_source_code source_lang with
    | .error e => (sync_error_response text source_lang target_lang e, [])
    | .ok source_mapped =>
      match map_target_code target_lang with
      | .error e => (sync_error_response text source_lang target_lang e, [])
      | .ok target_mapped =>
        let call : ClientCall := ⟨[text], source_mapped, target_mapped⟩
        match remote call with
        | .error e => (sync_error_response text source_lang target_lang e, [call])
        | .ok result => (mk_sync_success result text source_lang target_lang, [call])

/-- The filter loop of the bulk operations (lines 217-220 and 402-405),
starting the index bookkeeping at `n`: the kept texts paired with their
original indices. -/
def valid_pairs_from (n : Nat) (texts : List String) : List (Nat × String) :=
  (List.enumFrom n texts).filter (fun p => !(isBlank p.2))

/-- Kept texts with their original indices (`n = 0`). -/
def valid_pairs (texts : List String) : List (Nat × String) :=
  valid_pairs_from 0 texts

/-- `valid_texts` of the bulk operations: the retained texts in order. -/
def valid_texts (texts : List String) : List String :=
  (valid_pairs texts).map (fun p => p.2)

/-- `text_mapping` of the bulk operations: the dict mapping each position in
`valid_texts` to the original index of that text. -/
def text_mapping (texts : List String) : List (Nat × Nat) :=
  ((valid_pairs texts).enum).map (fun q => (q.1, q.2.1))

/-- The scatter loop of the bulk operations (lines 254-270 and 447-463):
`for i, result in enumerate(results): responses[text_mapping[i]] = ...`,
generic over the per-item result type; a missing key raises `KeyError`
(propagating to the operation's catch-all). `acc` is the `responses` array
of `None`s. -/
def scatterLoop {ρ : Type} (mk : ρ → String → TranslationResponse)
    (mapping : List (Nat × Nat)) (texts : List String) :
    Nat → List ρ → List (Option TranslationResponse) →
    Except PyError (List (Option TranslationResponse))
  | _, [], acc => .ok acc
  | i, r :: rs, acc =>
    match mapping.lookup i with
    | some j =>
      scatterLoop mk mapping texts (i + 1) rs
        (acc.set j (some (mk r (texts.getD j ""))))
    | none => .error (.keyError i)

/-- The fill loop of the bulk operations (lines 272-276 and 465-468):
positions still `None` become the empty SUCCESS response. -/
def fill_empty (source_lang target_lang : String)
    (responses : List (Option TranslationResponse)) : List TranslationResponse :=
  responses.map (fun o => o.getD (empty_response source_lang target_lang))

/-- `bulk_translate` (lines 205-302), with the vendor client as oracle.
The `isinstance(results, list)` normalization (lines 247-249) is modelled by
the oracle returning a list directly. -/
def bulk_translate (remote : ClientCall → Except PyError (List DeepLResult))
    (texts : List String) (source_lang target_lang : String) :
    List TranslationResponse × List ClientCall :=
  if texts = [] then ([], [])
  else
    let vt := valid_texts texts
    if vt = [] then
      (texts.map (fun _ => create_response "" source_lang target_lang 0 none none), [])
    else
      match map_source_code source_lang with
      | .error e => (texts.map (fun t => sync_error_response t source_lang target_lang e), [])
      | .ok source_mapped =>
        match map_target_code target_lang with
        | .error e => (texts.map (fun t => sync_error_response t source_lang target_lang e), [])
        | .ok target_mapped =>
          let call : ClientCall := ⟨vt, source_mapped, target_mapped⟩
          match remote call with
          | .error e =>
            (texts.map (fun t => sync_error_response t source_lang target_lang e), [call])
          | .ok results =>
            match scatterLoop
                (fun r orig => mk_sync_success r orig source_lang target_lang)
                (text_mapping texts) texts 0 results
                (List.replicate texts.length none) with
            | .error e =>
              (texts.map (fun t => sync_error_response t source_lang target_lang e), [call])
            | .ok arr => (fill_empty source_lang target_lang arr, [call])

/-- `translate_async` (lines 304-388), with the HTTP POST as oracle (it
covers `raise_for_status` and JSON parsing; its value is the `translations`
array). An empty array makes `result["translations"][0]` raise `IndexError`,
caught by the generic except-block. -/
def translate_async (cfg : TranslationConfig)
    (remote : HttpCall → Except PyError (List AsyncTranslation))
    (text source_lang target_lang : String) :
    TranslationResponse × List HttpCall :=
  if isBlank text then
    (create_response "" source_lang target_lang 0 none none, [])
  else if max_chunk_size < text.length then
    (async_error_response text source_lang target_lang
      (.translationError (length_error_msg text.length)), [])
  else
    match map_source_code source_lang with
    | .error e => (async_error_response text source_lang target_lang e, [])
    | .ok source_mapped =>
      match map_target_code target_lang with
      | .error e => (async_error_response text source_lang target_lang e, [])
      | .ok target_mapped =>
        let call : HttpCall :=
          ⟨async_post_url cfg, [text], source_mapped, target_mapped⟩
        match remote call with
        | .error e => (async_error_response text source_lang target_lang e, [call])
        | .ok translations =>
          match translations with
          | [] =>
            (async_error_response text source_lang target_lang
              (.indexError "list index out of range"), [call])
          | tr :: _ =>
            (mk_async_success tr text source_lang target_lang, [call])

/-- `bulk_translate_async` (lines 390-495), with the HTTP POST as oracle. -/
def bulk_translate_async (cfg : TranslationConfig)
    (remote : HttpCall → Except PyError (List AsyncTranslation))
    (texts : List String) (source_lang target_lang : String) :
    List TranslationResponse × List HttpCall :=
  if texts = [] then ([], [])
  else
    let vt := valid_texts texts
    if vt = [] then
      (texts.map (fun _ => create_response "" source_lang target_lang 0 none none), [])
    else
      match map_source_code source_lang with
      | .error e => (texts.map (fun t => async_error_response t source_lang target_lang e), [])
      | .ok source_mapped =>
        match map_target_code target_lang with
        | .error e => (texts.map (fun t => async_error_response t source_lang target_lang e), [])
        | .ok target_mapped =>
          let call : HttpCall :=
            ⟨async_post_url cfg, vt, source_mapped, target_mapped⟩
          match remote call with
          | .error e =>
            (texts.map (fun t => async_error_response t source_lang target_lang e), [call])
          | .ok translations =>
            match scatterLoop
                (fun tr orig => mk_async_success tr orig source_lang target_lang)
                (text_mapping texts) texts 0 translations
                (List.replicate texts.length none) with
            | .error e =>
              (texts.map (fun t => async_error_response t source_lang target_lang e), [call])
            | .ok arr => (fill_empty source_lang target_lang arr, [call])

/-- Source/target language lists returned by `get_supported_languages`. -/
structure LangLists where
  source : List String
  target : List String
deriving Repr, DecidableEq

/-- The fixed fallback lists of `get_supported_languages` (lines 509-513). -/
def fallback_languages : LangLists :=
  { source := ["en", "de", "fr", "es", "pt", "it", "ru", "ja", "zh", "pl",
               "nl", "sv", "da", "no", "fi"]
    target := ["en-us", "en-gb", "de", "fr", "es", "pt-pt", "pt-br", "it",
               "ru", "ja", "zh", "pl", "nl", "sv", "da", "no", "fi"] }

/-- `get_supported_languages` (lines 497-513): the oracle yields the source
and target language-code lists of the vendor client; any failure degrades to
the fallback lists. Typed into `Except` to record that no exception
escapes. -/
def get_supported_languages
    (remote : Except PyError (List String × List String)) :
    Except PyError LangLists :=
  match remote with
  | .ok (src, tgt) => .ok ⟨src.map String.toLower, tgt.map String.toLower⟩
  | .error _ => .ok fallback_languages

/-- The `usage.character` attribute (`limit_reached` probed via hasattr). -/
structure UsageCharacter where
  count : Int
  limit : Int
  limit_reached : Option Bool
deriving Repr, DecidableEq

/-- The optional `usage.document` / `usage.team_document` attributes. -/
structure UsageDocument where
  count : Int
  limit : Int
deriving Repr, DecidableEq

/-- The vendor client's usage object. -/
structure Usage where
  character : UsageCharacter
  document : Option UsageDocument
  team_document : Option UsageDocument
deriving Repr, DecidableEq

/-- The populated usage dictionary built on success (lines 519-527). -/
structure UsageInfo where
  character_count : Int
  character_limit : Int
  character_limit_reached : Bool
  document_count : Int
  document_limit : Int
  team_document_count : Int
  team_document_limit : Int
deriving Repr, DecidableEq

/-- `get_usage_info` (lines 515-530): `none` models the empty dict returned
on failure; absent optional attributes default via the hasattr-probes. -/
def get_usage_info (remote : Except PyError Usage) :
    Except PyError (Option UsageInfo) :=
  match remote with
  | .ok u =>
    .ok (some
      { character_count := u.character.count
        character_limit := u.character.limit
        character_limit_reached := u.character.limit_reached.getD false
        document_count := (u.document.map (fun d => d.count)).getD 0
        document_limit := (u.document.map (fun d => d.limit)).getD 0
        team_document_count := (u.team_document.map (fun d => d.count)).getD 0
        team_document_limit := (u.team_document.map (fun d => d.limit)).getD 0 })
  | .error _ => .ok none

/-- Modelled from the spec: the host framework's lazy configuration check
(package `mt_providers`, not in src). Spec section 4.2/7: "A missing or empty
API key must be reported as a configuration fault the moment a translation
operation is attempted, not at construction time"; the repository test
expects `ConfigurationError("API key is required")`. -/
def require_api_key (cfg : TranslationConfig) : Except PyError Unit :=
  if cfg.api_key = "" then .error (.configurationError "API key is required")
  else .ok ()

/-- `translate` as invoked through the host framework: the configuration
fault is the only exception that escapes the operation. -/
def translate_op (cfg : TranslationConfig)
    (remote : ClientCall → Except PyError DeepLResult)
    (text source_lang target_lang : String) :
    Except PyError (TranslationResponse × List ClientCall) :=
  match require_api_key cfg with
  | .error e => .error e
  | .ok _ => .ok (translate remote text source_lang target_lang)

/-- `bulk_translate` as invoked through the host framework. -/
def bulk_translate_op (cfg : TranslationConfig)
    (remote : ClientCall → Except PyError (List DeepLResult))
    (texts : List String) (source_lang target_lang : String) :
    Except PyError (List TranslationResponse × List ClientCall) :=
  match require_api_key cfg with
  | .error e => .error e
  | .ok _ => .ok (bulk_translate remote texts source_lang target_lang)

/-- `translate_async` as invoked through the host framework. -/
def translate_async_op (cfg : TranslationConfig)
    (remote : HttpCall → Except PyError (List AsyncTranslation))
    (text source_lang target_lang : String) :
    Except PyError (TranslationResponse × List HttpCall) :=
  match require_api_key cfg with
  | .error e => .error e
  | .ok _ => .ok (translate_async cfg remote text source_lang target_lang)

/-- `bulk_translate_async` as invoked through the host framework. -/
def bulk_translate_async_op (cfg : TranslationConfig)
    (remote : HttpCall → Except PyError (List AsyncTranslation))
    (texts : List String) (source_lang target_lang : String) :
    Except PyError (List TranslationResponse × List HttpCall) :=
  match require_api_key cfg with
  | .error e => .error e
  | .ok _ => .ok (bulk_translate_async cfg remote texts source_lang target_lang)

/-- Position of original index `j` among the texts kept by the filter: the
number of non-blank texts strictly before index `j`. -/
def valid_rank (texts : List String) (j : Nat) : Nat :=
  ((texts.take j).filter (fun x => !(isBlank x))).length

/-! ### Structural lemmas about the filter/index bookkeeping -/

lemma valid_pairs_from_cons (n : Nat) (t : String) (ts : List String) :
    valid_pairs_from n (t :: ts) =
      if isBlank t then valid_pairs_from (n + 1) ts
      else (n, t) :: valid_pairs_from (n + 1) ts := by
  simp only [valid_pairs_from, List.enumFrom_cons, List.filter_cons]
  by_cases h : isBlank t <;> simp [h]

lemma valid_pairs_from_map_snd (texts : List String) :
    ∀ n, (valid_pairs_from n texts).map (fun p => p.2)
      = texts.filter (fun x => !(isBlank x)) := by
  induction texts with
  | nil => intro n; rfl
  | cons t ts ih =>
    intro n
    rw [valid_pairs_from_cons, List.filter_cons]
    by_cases h : isBlank t <;> simp [h, ih]

lemma valid_texts_eq_filter (texts : List String) :
    valid_texts texts = texts.filter (fun x => !(isBlank x)) :=
  valid_pairs_from_map_snd texts 0

lemma length_valid_pairs (texts : List String) :
    (valid_pairs texts).length = (valid_texts texts).length := by
  simp [valid_texts]

lemma mem_valid_pairs_from {n : Nat} {texts : List String} {q : Nat × String}
    (hq : q ∈ valid_pairs_from n texts) :
    n ≤ q.1 ∧ q.1 < n + texts.length ∧ texts[q.1 - n]? = some q.2
      ∧ isBlank q.2 = false := by
  rcases List.mem_filter.mp hq with ⟨hmem, hp⟩
  obtain ⟨q1, q2⟩ := q
  obtain ⟨h1, h2, h3⟩ := List.mem_enumFrom hmem
  refine ⟨h1, by omega, ?_, by simpa using hp⟩
  have hlt : q1 - n < texts.length := by omega
  rw [List.getElem?_eq_getElem hlt]
  simp [← h3]

lemma pairwise_fst_lt_enumFrom {α : Type} (l : List α) :
    ∀ n, List.Pairwise (fun p q : Nat × α => p.1 < q.1) (List.enumFrom n l) := by
  induction l with
  | nil => intro n; simp
  | cons a l ih =>
    intro n
    rw [List.enumFrom_cons]
    refine List.Pairwise.cons ?_ (ih (n + 1))
    intro q hq
    obtain ⟨q1, q2⟩ := q
    obtain ⟨h1, _, _⟩ := List.mem_enumFrom hq
    simpa using by omega

lemma pairwise_fst_lt_valid_pairs (texts : List String) :
    List.Pairwise (fun p q : Nat × String => p.1 < q.1) (valid_pairs texts) :=
  (pairwise_fst_lt_enumFrom texts 0).filter _

lemma valid_pairs_fst_ne {texts : List String} {i1 i2 : Nat}
    {p1 p2 : Nat × String}
    (h1 : (valid_pairs texts)[i1]? = some p1)
    (h2 : (valid_pairs texts)[i2]? = some p2)
    (hne : i1 ≠ i2) : p1.1 ≠ p2.1 := by
  obtain ⟨hl1, he1⟩ := List.getElem?_eq_some.mp h1
  obtain ⟨hl2, he2⟩ := List.getElem?_eq_some.mp h2
  have hp := List.pairwise_iff_getElem.mp (pairwise_fst_lt_valid_pairs texts)
  rcases Nat.lt_or_ge i1 i2 with h | h
  · have := hp i1 i2 hl1 hl2 h
    rw [he1, he2] at this
    omega
  · have hlt : i2 < i1 := by omega
    have := hp i2 i1 hl2 hl1 hlt
    rw [he1, he2] at this
    omega

lemma lookup_enum_map_aux {α β : Type} (f : α → β) :
    ∀ (l : List α) (n k : Nat),
      List.lookup (n + k) ((List.enumFrom n l).map (fun q => (q.1, f q.2)))
        = (l[k]?).map f := by
  intro l
  induction l with
  | nil => intro n k; rfl
  | cons a l ih =>
    intro n k
    rw [List.enumFrom_cons]
    simp only [List.map_cons]
    rw [List.lookup_cons]
    cases k with
    | zero => simp
    | succ k' =>
      have hne : (n + (k' + 1) == n) = false := by
        simp only [beq_eq_false_iff_ne]
        omega
      rw [hne]
      have harith : n + (k' + 1) = (n + 1) + k' := by omega
      rw [harith, ih (n + 1) k']
      simp

lemma lookup_text_mapping (texts : List String) (i : Nat) :
    (text_mapping texts).lookup i
      = ((valid_pairs texts)[i]?).map (fun p => p.1) := by
  have h := lookup_enum_map_aux (fun x : Nat × String => x.1) (valid_pairs texts) 0 i
  simpa [text_mapping, List.enum] using h

lemma valid_pairs_rank (texts : List String) :
    ∀ (j : Nat) (t : String) (n : Nat), texts[j]? = some t → isBlank t = false →
      (valid_pairs_from n texts)[valid_rank texts j]? = some (n + j, t) := by
  induction texts with
  | nil => intro j t n h _; simp at h
  | cons a ts ih =>
    intro j t n h hb
    cases j with
    | zero =>
      simp only [List.getElem?_cons_zero, Option.some_inj] at h
      subst h
      rw [valid_pairs_from_cons, if_neg (by simp [hb])]
      simp [valid_rank]
    | succ j' =>
      have h' : ts[j']? = some t := by simpa using h
      rw [valid_pairs_from_cons]
      by_cases ha : isBlank a
      · rw [if_pos ha]
        have hr : valid_rank (a :: ts) (j' + 1) = valid_rank ts j' := by
          simp [valid_rank, List.take_succ_cons, List.filter_cons, ha]
        rw [hr, ih j' t (n + 1) h' hb]
        congr 2
        omega
      · rw [if_neg ha]
        have hr : valid_rank (a :: ts) (j' + 1) = valid_rank ts j' + 1 := by
          simp [valid_rank, List.take_succ_cons, List.filter_cons, ha]
        rw [hr]
        simp only [List.getElem?_cons_succ]
        rw [ih j' t (n + 1) h' hb]
        congr 2
        omega

lemma valid_pairs_rank0 {texts : List String} {j : Nat} {t : String}
    (h : texts[j]? = some t) (hb : isBlank t = false) :
    (valid_pairs texts)[valid_rank texts j]? = some (j, t) := by
  have := valid_pairs_rank texts j t 0 h hb
  simpa [valid_pairs] using this

lemma blank_not_mem_valid_pairs {texts : List String} {j : Nat} {t : String}
    (h : texts[j]? = some t) (hb : isBlank t = true) :
    ∀ (i : Nat) (p : Nat × String), (valid_pairs texts)[i]? = some p → p.1 ≠ j := by
  intro i p hp hpj
  have hmem : p ∈ valid_pairs texts := by
    obtain ⟨hl, he⟩ := List.getElem?_eq_some.mp hp
    exact he ▸ List.getElem_mem hl
  obtain ⟨_, _, hget, hbf⟩ := mem_valid_pairs_from hmem
  rw [Nat.sub_zero, hpj, h] at hget
  rw [← Option.some_inj.mp hget] at hbf
  rw [hb] at hbf
  exact absurd hbf (by simp)

lemma valid_pairs_fst_lt {texts : List String} {i : Nat} {p : Nat × String}
    (hp : (valid_pairs texts)[i]? = some p) : p.1 < texts.length := by
  have hmem : p ∈ valid_pairs texts := by
    obtain ⟨hl, he⟩ := List.getElem?_eq_some.mp hp
    exact he ▸ List.getElem_mem hl
  obtain ⟨_, hb, _, _⟩ := mem_valid_pairs_from hmem
  omega

lemma all_blank_iff_valid_texts_nil (texts : List String) :
    valid_texts texts = [] ↔ ∀ x ∈ texts, isBlank x = true := by
  rw [valid_texts_eq_filter, List.filter_eq_nil_iff]
  constructor
  · intro h x hx
    have := h x hx
    simpa using this
  · intro h x hx
    simp [h x hx]

/-! ### Characterization of the scatter loop -/

lemma scatterLoop_ok_weak {ρ : Type} (mk : ρ → String → TranslationResponse)
    (mapping : List (Nat × Nat)) (texts : List String) :
    ∀ (results : List ρ) (i : Nat) (acc out : List (Option TranslationResponse)),
      scatterLoop mk mapping texts i results acc = .ok out →
      out.length = acc.length ∧
      ∀ j : Nat, out[j]? = acc[j]? ∨
        ∃ r, out[j]? = some (some (mk r (texts.getD j ""))) := by
  intro results
  induction results with
  | nil =>
    intro i acc out h
    simp only [scatterLoop, Except.ok.injEq] at h
    subst h
    exact ⟨rfl, fun j => Or.inl rfl⟩
  | cons r rs ih =>
    intro i acc out h
    simp only [scatterLoop] at h
    cases hl : mapping.lookup i with
    | none => rw [hl] at h; simp at h
    | some j0 =>
      rw [hl] at h
      obtain ⟨hlen, helem⟩ := ih (i + 1) _ out h
      refine ⟨by rw [hlen, List.length_set], fun j => ?_⟩
      rcases helem j with h1 | h2
      · rw [List.getElem?_set] at h1
        by_cases hj : j0 = j
        · subst hj
          by_cases hr : j0 < acc.length
          · right
            refine ⟨r, ?_⟩
            rw [h1]
            simp [hr]
          · left
            rw [h1]
            simp only [if_pos rfl, if_neg hr]
            exact (List.getElem?_eq_none (by omega)).symm
        · left
          rw [h1]
          simp [hj]
      · right
        exact h2

lemma scatterLoop_ok_strong {ρ : Type} (mk : ρ → String → TranslationResponse)
    (texts : List String) :
    ∀ (results : List ρ) (i : Nat) (acc : List (Option TranslationResponse)),
      acc.length = texts.length →
      i + results.length ≤ (valid_pairs texts).length →
      ∃ out,
        scatterLoop mk (text_mapping texts) texts i results acc = .ok out ∧
        (∀ j : Nat,
          (∀ d, d < results.length →
            ((valid_pairs texts)[i + d]?).map (fun p => p.1) ≠ some j) →
          out[j]? = acc[j]?) ∧
        (∀ (j d : Nat) (rr : ρ), d < results.length → results[d]? = some rr →
          ((valid_pairs texts)[i + d]?).map (fun p => p.1) = some j →
          out[j]? = some (some (mk rr (texts.getD j "")))) := by
  intro results
  induction results with
  | nil =>
    intro i acc hacc hle
    refine ⟨acc, rfl, fun j _ => rfl, fun j d rr hd => ?_⟩
    simp at hd
  | cons r rs ih =>
    intro i acc hacc hle
    have hi : i < (valid_pairs texts).length := by
      simp only [List.length_cons] at hle
      omega
    obtain ⟨p, hp⟩ : ∃ p, (valid_pairs texts)[i]? = some p :=
      ⟨_, List.getElem?_eq_getElem hi⟩
    have hlook : (text_mapping texts).lookup i = some p.1 := by
      rw [lookup_text_mapping, hp]
      rfl
    have hp1lt : p.1 < texts.length := valid_pairs_fst_lt hp
    set acc' := acc.set p.1 (some (mk r (texts.getD p.1 ""))) with hacc'
    have hacc'len : acc'.length = texts.length := by
      rw [hacc', List.length_set, hacc]
    have hle' : (i + 1) + rs.length ≤ (valid_pairs texts).length := by
      simp only [List.length_cons] at hle
      omega
    obtain ⟨out, hout, hcl1, hcl2⟩ := ih (i + 1) acc' hacc'len hle'
    refine ⟨out, ?_, ?_, ?_⟩
    · simp only [scatterLoop, hlook]
      exact hout
    · intro j hnomatch
      have hne0 : p.1 ≠ j := by
        intro hcontra
        have := hnomatch 0 (by simp)
        rw [Nat.add_zero, hp] at this
        exact this (by simpa using hcontra)
      have hshift : ∀ d, d < rs.length →
          ((valid_pairs texts)[(i + 1) + d]?).map (fun q => q.1) ≠ some j := by
        intro d hd
        have := hnomatch (d + 1) (by simp only [List.length_cons]; omega)
        rwa [show i + (d + 1) = (i + 1) + d by omega] at this
      rw [hcl1 j hshift, hacc', List.getElem?_set, if_neg hne0]
    · intro j d rr hd hres hmatch
      cases d with
      | zero =>
        rw [Nat.add_zero, hp] at hmatch
        have hj : p.1 = j := by simpa using hmatch
        have hrr : r = rr := by simpa using hres
        subst hrr
        have hnomatch' : ∀ d', d' < rs.length →
            ((valid_pairs texts)[(i + 1) + d']?).map (fun q => q.1) ≠ some j := by
          intro d' hd' hcontra
          cases hq : (valid_pairs texts)[(i + 1) + d']? with
          | none => rw [hq] at hcontra; simp at hcontra
          | some q =>
            rw [hq] at hcontra
            have hq1 : q.1 = j := by simpa using hcontra
            have := valid_pairs_fst_ne hp hq (by omega)
            rw [hj, hq1] at this
            exact this rfl
        rw [hcl1 j hnomatch', hacc', List.getElem?_set, if_pos hj]
        rw [hacc] at *
        rw [if_pos (hj ▸ hp1lt), hj]
      | succ d' =>
        have hd' : d' < rs.length := by
          simp only [List.length_cons] at hd
          omega
        have hres' : rs[d']? = some rr := by simpa using hres
        have hmatch' :
            ((valid_pairs texts)[(i + 1) + d']?).map (fun q => q.1) = some j := by
          rwa [show i + (d' + 1) = (i + 1) + d' by omega] at hmatch
        exact hcl2 j d' rr hd' hres' hmatch'

/-! ### Field lemmas for the response shapes -/

@[simp] lemma char_count_create_response (a b c : String) (n : Nat)
    (m : Option ResponseMetadata) (e : Option String) :
    (create_response a b c n m e).char_count = n := rfl

@[simp] lemma status_create_response_none (a b c : String) (n : Nat)
    (m : Option ResponseMetadata) :
    (create_response a b c n m none).status = .SUCCESS := rfl

@[simp] lemma status_create_response_some (a b c : String) (n : Nat)
    (m : Option ResponseMetadata) (msg : String) :
    (create_response a b c n m (some msg)).status = .ERROR := rfl

@[simp] lemma empty_response_char_count (s t : String) :
    (empty_response s t).char_count = 0 := rfl

@[simp] lemma empty_response_status (s t : String) :
    (empty_response s t).status = .SUCCESS := rfl

@[simp] lemma empty_response_text (s t : String) :
    (empty_response s t).translated_text = "" := rfl

@[simp] lemma sync_error_response_char_count (x s t : String) (e : PyError) :
    (sync_error_response x s t e).char_count = x.length := rfl

@[simp] lemma sync_error_response_status (x s t : String) (e : PyError) :
    (sync_error_response x s t e).status = .ERROR := rfl

@[simp] lemma async_error_response_char_count (x s t : String) (e : PyError) :
    (async_error_response x s t e).char_count = x.length := rfl

@[simp] lemma async_error_response_status (x s t : String) (e : PyError) :
    (async_error_response x s t e).status = .ERROR := rfl

@[simp] lemma mk_sync_success_char_count (r : DeepLResult) (x s t : String) :
    (mk_sync_success r x s t).char_count = x.length := rfl

@[simp] lemma mk_sync_success_status (r : DeepLResult) (x s t : String) :
    (mk_sync_success r x s t).status = .SUCCESS := rfl

@[simp] lemma mk_async_success_char_count (r : AsyncTranslation) (x s t : String) :
    (mk_async_success r x s t).char_count = x.length := rfl

@[simp] lemma mk_async_success_status (r : AsyncTranslation) (x s t : String) :
    (mk_async_success r x s t).status = .SUCCESS := rfl

lemma getElem?_map_some {α β : Type} {l : List α} {f : α → β} {j : Nat}
    {x : α} {y : β} (hj : l[j]? = some x) (hr : (l.map f)[j]? = some y) :
    y = f x := by
  rw [List.getElem?_map, hj] at hr
  simpa using hr.symm

/-! ### Branch characterizations of `bulk_translate` -/

lemma bulk_translate_all_blank
    (remote : ClientCall → Except PyError (List DeepLResult))
    (texts : List String) (s t : String) (hne : texts ≠ [])
    (hb : ∀ x ∈ texts, isBlank x = true) :
    bulk_translate remote texts s t
      = (texts.map (fun _ => empty_response s t), []) := by
  have hnb : valid_texts texts = [] := (all_blank_iff_valid_texts_nil texts).mpr hb
  simp only [bulk_translate, if_neg hne, hnb]
  rfl

lemma bulk_translate_calls
    (remote : ClientCall → Except PyError (List DeepLResult))
    (texts : List String) (s t : String) (sm : Option String) (tm : String)
    (hne : texts ≠ []) (hnb : valid_texts texts ≠ [])
    (hs : map_source_code s = .ok sm) (ht : map_target_code t = .ok tm) :
    (bulk_translate remote texts s t).2 = [⟨valid_texts texts, sm, tm⟩] := by
  simp only [bulk_translate, if_neg hne, if_neg hnb, hs, ht]
  cases hrem : remote ⟨valid_texts texts, sm, tm⟩ with
  | error e => rfl
  | ok results =>
    cases hsc : scatterLoop (fun r orig => mk_sync_success r orig s t)
        (text_mapping texts) texts 0 results (List.replicate texts.length none) with
    | error e => simp only [hsc]
    | ok arr => simp only [hsc]

lemma bulk_translate_remote_error
    (remote : ClientCall → Except PyError (List DeepLResult))
    (texts : List String) (s t : String) (sm : Option String) (tm : String)
    (e : PyError)
    (hne : texts ≠ []) (hnb : valid_texts texts ≠ [])
    (hs : map_source_code s = .ok sm) (ht : map_target_code t = .ok tm)
    (hr : remote ⟨valid_texts texts, sm, tm⟩ = .error e) :
    (bulk_translate remote texts s t).1
      = texts.map (fun x => sync_error_response x s t e) := by
  simp only [bulk_translate, if_neg hne, if_neg hnb, hs, ht, hr]

lemma bulk_translate_success_char
    (remote : ClientCall → Except PyError (List DeepLResult))
    (texts : List String) (s t : String) (sm : Option String) (tm : String)
    (results : List DeepLResult)
    (hne : texts ≠ []) (hnb : valid_texts texts ≠ [])
    (hs : map_source_code s = .ok sm) (ht : map_target_code t = .ok tm)
    (hr : remote ⟨valid_texts texts, sm, tm⟩ = .ok results)
    (hlen : results.length = (valid_texts texts).length) :
    (bulk_translate remote texts s t).2 = [⟨valid_texts texts, sm, tm⟩] ∧
    ((bulk_translate remote texts s t).1).length = texts.length ∧
    ∀ (j : Nat) (tj : String), texts[j]? = some tj →
      (isBlank tj = true →
        ((bulk_translate remote texts s t).1)[j]? = some (empty_response s t)) ∧
      (isBlank tj = false →
        ∃ rr, results[valid_rank texts j]? = some rr ∧
          ((bulk_translate remote texts s t).1)[j]?
            = some (mk_sync_success rr tj s t)) := by
  have hlen' : 0 + results.length ≤ (valid_pairs texts).length := by
    rw [length_valid_pairs]
    omega
  obtain ⟨out, hout, hcl1, hcl2⟩ :=
    scatterLoop_ok_strong (fun r orig => mk_sync_success r orig s t) texts results 0
      (List.replicate texts.length none) (by simp) hlen'
  have houtlen : out.length = texts.length := by
    have := (scatterLoop_ok_weak (fun r orig => mk_sync_success r orig s t)
      (text_mapping texts) texts results 0 _ out hout).1
    simpa using this
  have hbt : bulk_translate remote texts s t
      = (fill_empty s t out, [⟨valid_texts texts, sm, tm⟩]) := by
    simp only [bulk_translate, if_neg hne, if_neg hnb, hs, ht, hr, hout]
  refine ⟨by rw [hbt], by rw [hbt]; simp [fill_empty, houtlen], ?_⟩
  intro j tj hj
  have hjlt : j < texts.length := (List.getElem?_eq_some.mp hj).1
  constructor
  · intro hblank
    have hnomatch : ∀ d, d < results.length →
        ((valid_pairs texts)[0 + d]?).map (fun p => p.1) ≠ some j := by
      intro d _ hcontra
      cases hq : (valid_pairs texts)[0 + d]? with
      | none => rw [hq] at hcontra; simp at hcontra
      | some q =>
        rw [hq] at hcontra
        exact blank_not_mem_valid_pairs hj hblank _ q hq (by simpa using hcontra)
    have hout_j : out[j]? = some none := by
      rw [hcl1 j hnomatch, List.getElem?_replicate, if_pos hjlt]
    rw [hbt]
    simp only [fill_empty, List.getElem?_map, hout_j, Option.map_some]
    rfl
  · intro hblank
    have hrank := valid_pairs_rank0 hj hblank
    have hranklt : valid_rank texts j < (valid_pairs texts).length :=
      (List.getElem?_eq_some.mp hrank).1
    have hranklt' : valid_rank texts j < results.length := by
      rw [hlen, ← length_valid_pairs]
      exact hranklt
    obtain ⟨rr, hrr⟩ : ∃ rr, results[valid_rank texts j]? = some rr :=
      ⟨_, List.getElem?_eq_getElem hranklt'⟩
    refine ⟨rr, hrr, ?_⟩
    have hmatch : ((valid_pairs texts)[0 + valid_rank texts j]?).map
        (fun p => p.1) = some j := by
      rw [Nat.zero_add, hrank]
      rfl
    have hout_j := hcl2 j (valid_rank texts j) rr hranklt' hrr hmatch
    have hgetD : texts.getD j "" = tj := by
      rw [List.getD_eq_getElem?_getD, hj]
      rfl
    rw [hbt]
    simp only [fill_empty, List.getElem?_map, hout_j, Option.map_some]
    rw [hgetD]
    rfl

lemma bulk_translate_shape
    (remote : ClientCall → Except PyError (List DeepLResult))
    (texts : List String) (s t : String) :
    ((bulk_translate remote texts s t).1).length = texts.length ∧
    ∀ (j : Nat) (tj : String) (r : TranslationResponse), texts[j]? = some tj →
      ((bulk_translate remote texts s t).1)[j]? = some r →
      r.char_count = 0 ∨ r.char_count = tj.length := by
  by_cases hne : texts = []
  · subst hne
    refine ⟨by simp [bulk_translate], ?_⟩
    intro j tj r hj
    simp at hj
  · by_cases hnb : valid_texts texts = []
    · simp only [bulk_translate, if_neg hne, hnb, if_pos rfl]
      refine ⟨by simp, ?_⟩
      intro j tj r hj hr
      rw [getElem?_map_some hj hr]
      left
      rfl
    · cases hs : map_source_code s with
      | error e =>
        simp only [bulk_translate, if_neg hne, if_neg hnb, hs]
        refine ⟨by simp, ?_⟩
        intro j tj r hj hr
        rw [getElem?_map_some hj hr]
        right
        rfl
      | ok sm =>
        cases ht : map_target_code t with
        | error e =>
          simp only [bulk_translate, if_neg hne, if_neg hnb, hs, ht]
          refine ⟨by simp, ?_⟩
          intro j tj r hj hr
          rw [getElem?_map_some hj hr]
          right
          rfl
        | ok tm =>
          cases hrem : remote ⟨valid_texts texts, sm, tm⟩ with
          | error e =>
            simp only [bulk_translate, if_neg hne, if_neg hnb, hs, ht, hrem]
            refine ⟨by simp, ?_⟩
            intro j tj r hj hr
            rw [getElem?_map_some hj hr]
            right
            rfl
          | ok results =>
            cases hsc : scatterLoop (fun r orig => mk_sync_success r orig s t)
                (text_mapping texts) texts 0 results
                (List.replicate texts.length none) with
            | error e =>
              simp only [bulk_translate, if_neg hne, if_neg hnb, hs, ht, hrem, hsc]
              refine ⟨by simp, ?_⟩
              intro j tj r hj hr
              rw [getElem?_map_some hj hr]
              right
              rfl
            | ok arr =>
              simp only [bulk_translate, if_neg hne, if_neg hnb, hs, ht, hrem, hsc]
              obtain ⟨hlen, helem⟩ :=
                scatterLoop_ok_weak (fun r orig => mk_sync_success r orig s t)
                  (text_mapping texts) texts results 0 _ arr hsc
              refine ⟨by simp [fill_empty, hlen], ?_⟩
              intro j tj r hj hr
              simp only [fill_empty, List.getElem?_map] at hr
              rcases helem j with h1 | ⟨r', h2⟩
              · rw [h1, List.getElem?_replicate,
                  if_pos (List.getElem?_eq_some.mp hj).1] at hr
                simp only [Option.map_some'] at hr
                left
                rw [Option.some_inj.mp hr.symm]
                rfl
              · rw [h2] at hr
                simp only [Option.map_some'] at hr
                right
                rw [Option.some_inj.mp hr.symm]
                simp [List.getD_eq_getElem?_getD, hj]

/-! ### Branch characterizations of `bulk_translate_async` -/

lemma bulk_translate_async_all_blank (cfg : TranslationConfig)
    (remote : HttpCall → Except PyError (List AsyncTranslation))
    (texts : List String) (s t : String) (hne : texts ≠ [])
    (hb : ∀ x ∈ texts, isBlank x = true) :
    bulk_translate_async cfg remote texts s t
      = (texts.map (fun _ => empty_response s t), []) := by
  have hnb : valid_texts texts = [] := (all_blank_iff_valid_texts_nil texts).mpr hb
  simp only [bulk_translate_async, if_neg hne, hnb]
  rfl

lemma bulk_translate_async_calls (cfg : TranslationConfig)
    (remote : HttpCall → Except PyError (List AsyncTranslation))
    (texts : List String) (s t : String) (sm : Option String) (tm : String)
    (hne : texts ≠ []) (hnb : valid_texts texts ≠ [])
    (hs : map_source_code s = .ok sm) (ht : map_target_code t = .ok tm) :
    (bulk_translate_async cfg remote texts s t).2
      = [⟨async_post_url cfg, valid_texts texts, sm, tm⟩] := by
  simp only [bulk_translate_async, if_neg hne, if_neg hnb, hs, ht]
  cases hrem : remote ⟨async_post_url cfg, valid_texts texts, sm, tm⟩ with
  | error e => rfl
  | ok translations =>
    cases hsc : scatterLoop (fun tr orig => mk_async_success tr orig s t)
        (text_mapping texts) texts 0 translations
        (List.replicate texts.length none) with
    | error e => simp only [hsc]
    | ok arr => simp only [hsc]

lemma bulk_translate_async_remote_error (cfg : TranslationConfig)
    (remote : HttpCall → Except PyError (List AsyncTranslation))
    (texts : List String) (s t : String) (sm : Option String) (tm : String)
    (e : PyError)
    (hne : texts ≠ []) (hnb : valid_texts texts ≠ [])
    (hs : map_source_code s = .ok sm) (ht : map_target_code t = .ok tm)
    (hr : remote ⟨async_post_url cfg, valid_texts texts, sm, tm⟩ = .error e) :
    (bulk_translate_async cfg remote texts s t).1
      = texts.map (fun x => async_error_response x s t e) := by
  simp only [bulk_translate_async, if_neg hne, if_neg hnb, hs, ht, hr]

lemma bulk_translate_async_success_char (cfg : TranslationConfig)
    (remote : HttpCall → Except PyError (List AsyncTranslation))
    (texts : List String) (s t : String) (sm : Option String) (tm : String)
    (translations : List AsyncTranslation)
    (hne : texts ≠ []) (hnb : valid_texts texts ≠ [])
    (hs : map_source_code s = .ok sm) (ht : map_target_code t = .ok tm)
    (hr : remote ⟨async_post_url cfg, valid_texts texts, sm, tm⟩ = .ok translations)
    (hlen : translations.length = (valid_texts texts).length) :
    (bulk_translate_async cfg remote texts s t).2
      = [⟨async_post_url cfg, valid_texts texts, sm, tm⟩] ∧
    ((bulk_translate_async cfg remote texts s t).1).length = texts.length ∧
    ∀ (j : Nat) (tj : String), texts[j]? = some tj →
      (isBlank tj = true →
        ((bulk_translate_async cfg remote texts s t).1)[j]?
          = some (empty_response s t)) ∧
      (isBlank tj = false →
        ∃ rr, translations[valid_rank texts j]? = some rr ∧
          ((bulk_translate_async cfg remote texts s t).1)[j]?
            = some (mk_async_success rr tj s t)) := by
  have hlen' : 0 + translations.length ≤ (valid_pairs texts).length := by
    rw [length_valid_pairs]
    omega
  obtain ⟨out, hout, hcl1, hcl2⟩ :=
    scatterLoop_ok_strong (fun tr orig => mk_async_success tr orig s t) texts
      translations 0 (List.replicate texts.length none) (by simp) hlen'
  have houtlen : out.length = texts.length := by
    have := (scatterLoop_ok_weak (fun tr orig => mk_async_success tr orig s t)
      (text_mapping texts) texts translations 0 _ out hout).1
    simpa using this
  have hbt : bulk_translate_async cfg remote texts s t
      = (fill_empty s t out, [⟨async_post_url cfg, valid_texts texts, sm, tm⟩]) := by
    simp only [bulk_translate_async, if_neg hne, if_neg hnb, hs, ht, hr, hout]
  refine ⟨by rw [hbt], by rw [hbt]; simp [fill_empty, houtlen], ?_⟩
  intro j tj hj
  have hjlt : j < texts.length := (List.getElem?_eq_some.mp hj).1
  constructor
  · intro hblank
    have hnomatch : ∀ d, d < translations.length →
        ((valid_pairs texts)[0 + d]?).map (fun p => p.1) ≠ some j := by
      intro d _ hcontra
      cases hq : (valid_pairs texts)[0 + d]? with
      | none => rw [hq] at hcontra; simp at hcontra
      | some q =>
        rw [hq] at hcontra
        exact blank_not_mem_valid_pairs hj hblank _ q hq (by simpa using hcontra)
    have hout_j : out[j]? = some none := by
      rw [hcl1 j hnomatch, List.getElem?_replicate, if_pos hjlt]
    rw [hbt]
    simp only [fill_empty, List.getElem?_map, hout_j, Option.map_some']
    rfl
  · intro hblank
    have hrank := valid_pairs_rank0 hj hblank
    have hranklt : valid_rank texts j < (valid_pairs texts).length :=
      (List.getElem?_eq_some.mp hrank).1
    have hranklt' : valid_rank texts j < translations.length := by
      rw [hlen, ← length_valid_pairs]
      exact hranklt
    obtain ⟨rr, hrr⟩ : ∃ rr, translations[valid_rank texts j]? = some rr :=
      ⟨_, List.getElem?_eq_getElem hranklt'⟩
    refine ⟨rr, hrr, ?_⟩
    have hmatch : ((valid_pairs texts)[0 + valid_rank texts j]?).map
        (fun p => p.1) = some j := by
      rw [Nat.zero_add, hrank]
      rfl
    have hout_j := hcl2 j (valid_rank texts j) rr hranklt' hrr hmatch
    have hgetD : texts.getD j "" = tj := by
      rw [List.getD_eq_getElem?_getD, hj]
      rfl
    rw [hbt]
    simp only [fill_empty, List.getElem?_map, hout_j, Option.map_some']
    rw [hgetD]
    rfl

lemma bulk_translate_async_shape (cfg : TranslationConfig)
    (remote : HttpCall → Except PyError (List AsyncTranslation))
    (texts : List String) (s t : String) :
    ((bulk_translate_async cfg remote texts s t).1).length = texts.length ∧
    ∀ (j : Nat) (tj : String) (r : TranslationResponse), texts[j]? = some tj →
      ((bulk_translate_async cfg remote texts s t).1)[j]? = some r →
      r.char_count = 0 ∨ r.char_count = tj.length := by
  by_cases hne : texts = []
  · subst hne
    refine ⟨by simp [bulk_translate_async], ?_⟩
    intro j tj r hj
    simp at hj
  · by_cases hnb : valid_texts texts = []
    · simp only [bulk_translate_async, if_neg hne, hnb, if_pos rfl]
      refine ⟨by simp, ?_⟩
      intro j tj r hj hr
      rw [getElem?_map_some hj hr]
      left
      rfl
    · cases hs : map_source_code s with
      | error e =>
        simp only [bulk_translate_async, if_neg hne, if_neg hnb, hs]
        refine ⟨by simp, ?_⟩
        intro j tj r hj hr
        rw [getElem?_map_some hj hr]
        right
        rfl
      | ok sm =>
        cases ht : map_target_code t with
        | error e =>
          simp only [bulk_translate_async, if_neg hne, if_neg hnb, hs, ht]
          refine ⟨by simp, ?_⟩
          intro j tj r hj hr
          rw [getElem?_map_some hj hr]
          right
          rfl
        | ok tm =>
          cases hrem : remote ⟨async_post_url cfg, valid_texts texts, sm, tm⟩ with
          | error e =>
            simp only [bulk_translate_async, if_neg hne, if_neg hnb, hs, ht, hrem]
            refine ⟨by simp, ?_⟩
            intro j tj r hj hr
            rw [getElem?_map_some hj hr]
            right
            rfl
          | ok translations =>
            cases hsc : scatterLoop (fun tr orig => mk_async_success tr orig s t)
                (text_mapping texts) texts 0 translations
                (List.replicate texts.length none) with
            | error e =>
              simp only [bulk_translate_async, if_neg hne, if_neg hnb, hs, ht,
                hrem, hsc]
              refine ⟨by simp, ?_⟩
              intro j tj r hj hr
              rw [getElem?_map_some hj hr]
              right
              rfl
            | ok arr =>
              simp only [bulk_translate_async, if_neg hne, if_neg hnb, hs, ht,
                hrem, hsc]
              obtain ⟨hlen, helem⟩ :=
                scatterLoop_ok_weak (fun tr orig => mk_async_success tr orig s t)
                  (text_mapping texts) texts translations 0 _ arr hsc
              refine ⟨by simp [fill_empty, hlen], ?_⟩
              intro j tj r hj hr
              simp only [fill_empty, List.getElem?_map] at hr
              rcases helem j with h1 | ⟨r', h2⟩
              · rw [h1, List.getElem?_replicate,
                  if_pos (List.getElem?_eq_some.mp hj).1] at hr
                simp only [Option.map_some'] at hr
                left
                rw [Option.some_inj.mp hr.symm]
                rfl
              · rw [h2] at hr
                simp only [Option.map_some'] at hr
                right
                rw [Option.some_inj.mp hr.symm]
                simp [List.getD_eq_getElem?_getD, hj]

lemma translate_async_calls_url (cfg : TranslationConfig)
    (remote : HttpCall → Except PyError (List AsyncTranslation))
    (text s t : String) :
    ∀ c ∈ (translate_async cfg remote text s t).2, c.url = async_post_url cfg := by
  intro c hc
  by_cases h1 : isBlank text
  · simp only [translate_async, if_pos h1] at hc
    simp at hc
  · by_cases h2 : max_chunk_size < text.length
    · simp only [translate_async, if_neg h1, if_pos h2] at hc
      simp at hc
    · cases hs : map_source_code s with
      | error e =>
        simp only [translate_async, if_neg h1, if_neg h2, hs] at hc
        simp at hc
      | ok sm =>
        cases ht : map_target_code t with
        | error e =>
          simp only [translate_async, if_neg h1, if_neg h2, hs, ht] at hc
          simp at hc
        | ok tm =>
          simp only [translate_async, if_neg h1, if_neg h2, hs, ht] at hc
          cases hrem : remote ⟨async_post_url cfg, [text], sm, tm⟩ with
          | error e =>
            rw [hrem] at hc
            simp at hc
            rw [hc]
          | ok translations =>
            rw [hrem] at hc
            cases translations with
            | nil =>
              simp at hc
              rw [hc]
            | cons tr rest =>
              simp at hc
              rw [hc]

lemma bulk_translate_async_calls_url (cfg : TranslationConfig)
    (remote : HttpCall → Except PyError (List AsyncTranslation))
    (texts : List String) (s t : String) :
    ∀ c ∈ (bulk_translate_async cfg remote texts s t).2,
      c.url = async_post_url cfg := by
  intro c hc
  by_cases hne : texts = []
  · simp only [bulk_translate_async, if_pos hne] at hc
    simp at hc
  · by_cases hnb : valid_texts texts = []
    · simp only [bulk_translate_async, if_neg hne, hnb, if_pos rfl] at hc
      simp at hc
    · cases hs : map_source_code s with
      | error e =>
        simp only [bulk_translate_async, if_neg hne, if_neg hnb, hs] at hc
        simp at hc
      | ok sm =>
        cases ht : map_target_code t with
        | error e =>
          simp only [bulk_translate_async, if_neg hne, if_neg hnb, hs, ht] at hc
          simp at hc
        | ok tm =>
          simp only [bulk_translate_async, if_neg hne, if_neg hnb, hs, ht] at hc
          cases hrem : remote ⟨async_post_url cfg, valid_texts texts, sm, tm⟩ with
          | error e =>
            simp only [hrem] at hc
            simp at hc
            rw [hc]
          | ok translations =>
            simp only [hrem] at hc
            cases hsc : scatterLoop (fun tr orig => mk_async_success tr orig s t)
                (text_mapping texts) texts 0 translations
                (List.replicate texts.length none) with
            | error e =>
              simp only [hsc] at hc
              simp at hc
              rw [hc]
            | ok arr =>
              simp only [hsc] at hc
              simp at hc
              rw [hc]

lemma takeWhile_append_of_all {α : Type} (p : α → Bool) (a : List α) (x : α)
    (b : List α) (ha : ∀ y ∈ a, p y = true) (hx : p x = false) :
    (a ++ x :: b).takeWhile p = a := by
  induction a with
  | nil => simp [List.takeWhile_cons, hx]
  | cons y ys ih =>
    have hy : p y = true := ha y (by simp)
    simp only [List.cons_append, List.takeWhile_cons, hy, if_pos]
    rw [ih (fun z hz => ha z (by simp [hz]))]

lemma all_replicate_true {α : Type} (p : α → Bool) (a : α) (h : p a = true) :
    ∀ n, (List.replicate n a).all p = true := by
  intro n
  induction n with
  | zero => rfl
  | succ n ih => simp [List.replicate_succ, ih, h]

lemma isBlank_replicate_space (n : Nat) :
    isBlank (String.mk (List.replicate n ' ')) = true := by
  simp only [isBlank]
  exact all_replicate_true isPyWhitespace ' ' (by decide) n

lemma isBlank_replicate_letter :
    isBlank (String.mk (List.replicate 30001 'a')) = false := by
  simp only [isBlank]
  show (List.replicate 30001 'a').all isPyWhitespace = false
  rw [show (30001 : Nat) = 30000 + 1 from rfl, List.replicate_succ, List.all_cons]
  rw [show isPyWhitespace 'a' = false from by decide, Bool.false_and]

lemma length_mk_replicate (n : Nat) (c : Char) :
    (String.mk (List.replicate n c)).length = n := by
  show (List.replicate n c).length = n
  exact List.length_replicate n c

/-! ### Claim theorems -/

/-- C1: for every list of texts and every source/target language pair,
`bulk_translate` and `bulk_translate_async` return exactly one response per
input text in every outcome (success, batches containing blank texts,
language-mapping failure, transport failure, malformed remote payload), and
the response at index `i` is the one for input `i`: in every outcome its
`char_count` is that input's own length or the zero of the empty-fill, and on
the successful path the blank inputs receive the empty SUCCESS response while
the non-blank input at index `i` receives exactly the translation whose
position in the wire payload is the rank of `i` among the non-blank inputs
(original input order preserved by the index bookkeeping). -/
theorem bulk_preserves_length_and_order :
    (∀ (remote : ClientCall → Except PyError (List DeepLResult))
        (texts : List String) (s t : String),
      ((bulk_translate remote texts s t).1).length = texts.length ∧
      ∀ (j : Nat) (tj : String) (r : TranslationResponse), texts[j]? = some tj →
        ((bulk_translate remote texts s t).1)[j]? = some r →
        r.char_count = 0 ∨ r.char_count = tj.length) ∧
    (∀ (cfg : TranslationConfig)
        (remote : HttpCall → Except PyError (List AsyncTranslation))
        (texts : List String) (s t : String),
      ((bulk_translate_async cfg remote texts s t).1).length = texts.length ∧
      ∀ (j : Nat) (tj : String) (r : TranslationResponse), texts[j]? = some tj →
        ((bulk_translate_async cfg remote texts s t).1)[j]? = some r →
        r.char_count = 0 ∨ r.char_count = tj.length) ∧
    (∀ (remote : ClientCall → Except PyError (List DeepLResult))
        (texts : List String) (s t : String) (sm : Option String) (tm : String)
        (results : List DeepLResult),
      texts ≠ [] → valid_texts texts ≠ [] →
      map_source_code s = .ok sm → map_target_code t = .ok tm →
      remote ⟨valid_texts texts, sm, tm⟩ = .ok results →
      results.length = (valid_texts texts).length →
      ∀ (j : Nat) (tj : String), texts[j]? = some tj →
        (isBlank tj = true →
          ((bulk_translate remote texts s t).1)[j]? = some (empty_response s t)) ∧
        (isBlank tj = false →
          ∃ rr, results[valid_rank texts j]? = some rr ∧
            ((bulk_translate remote texts s t).1)[j]?
              = some (mk_sync_success rr tj s t))) ∧
    (∀ (cfg : TranslationConfig)
        (remote : HttpCall → Except PyError (List AsyncTranslation))
        (texts : List String) (s t : String) (sm : Option String) (tm : String)
        (translations : List AsyncTranslation),
      texts ≠ [] → valid_texts texts ≠ [] →
      map_source_code s = .ok sm → map_target_code t = .ok tm →
      remote ⟨async_post_url cfg, valid_texts texts, sm, tm⟩ = .ok translations →
      translations.length = (valid_texts texts).length →
      ∀ (j : Nat) (tj : String), texts[j]? = some tj →
        (isBlank tj = true →
          ((bulk_translate_async cfg remote texts s t).1)[j]?
            = some (empty_response s t)) ∧
        (isBlank tj = false →
          ∃ rr, translations[valid_rank texts j]? = some rr ∧
            ((bulk_translate_async cfg remote texts s t).1)[j]?
              = some (mk_async_success rr tj s t))) := by
  refine ⟨fun remote texts s t => bulk_translate_shape remote texts s t,
    fun cfg remote texts s t => bulk_translate_async_shape cfg remote texts s t,
    ?_, ?_⟩
  · intro remote texts s t sm tm results hne hnb hs ht hr hlen
    exact (bulk_translate_success_char remote texts s t sm tm results
      hne hnb hs ht hr hlen).2.2
  · intro cfg remote texts s t sm tm translations hne hnb hs ht hr hlen
    exact (bulk_translate_async_success_char cfg remote texts s t sm tm
      translations hne hnb hs ht hr hlen).2.2

/-- Witness for C1 at concrete inputs: a transport-failure batch keeps length
and per-index char counts, and a successful batch with a blank middle text
scatters the two results back around it. -/
theorem bulk_preserves_length_and_order_witness :
    ((bulk_translate (fun _ => .error (.deepLException "down"))
        ["Hi", " "] "en" "es").1).length = 2 ∧
    ((sync_error_response "Hi" "en" "es" (.deepLException "down")).char_count = 0 ∨
      (sync_error_response "Hi" "en" "es" (.deepLException "down")).char_count
        = ("Hi" : String).length) ∧
    (isBlank "" = true →
      ((bulk_translate
          (fun _ => .ok [⟨"Hola", some "EN"⟩, ⟨"Mundo", some "EN"⟩])
          ["Hello", "", "World"] "en" "es").1)[1]?
        = some (empty_response "en" "es")) := by
  refine ⟨(bulk_preserves_length_and_order.1 _ _ _ _).1, ?_, ?_⟩
  · exact (bulk_preserves_length_and_order.1
      (fun _ => .error (.deepLException "down")) ["Hi", " "] "en" "es").2 0 "Hi"
      (sync_error_response "Hi" "en" "es" (.deepLException "down"))
      (by decide) (by decide)
  · exact ((bulk_preserves_length_and_order.2.2.1
      (fun _ => .ok [⟨"Hola", some "EN"⟩, ⟨"Mundo", some "EN"⟩])
      ["Hello", "", "World"] "en" "es" (some "EN") "ES"
      [⟨"Hola", some "EN"⟩, ⟨"Mundo", some "EN"⟩]
      (by decide) (by decide) (by rfl) (by rfl) (by rfl) (by rfl))
      1 "" (by decide)).1

/-- C10: a non-empty batch whose texts are all empty or whitespace-only makes
`bulk_translate` and `bulk_translate_async` return immediately with one empty
SUCCESS response (`char_count` 0, empty text) per input, dispatch zero network
calls, and never reach the language-code mapping: the result is the same for
every source/target code, including unsupported ones. -/
theorem all_blank_batch_short_circuits
    (remote : ClientCall → Except PyError (List DeepLResult))
    (cfg : TranslationConfig)
    (aremote : HttpCall → Except PyError (List AsyncTranslation))
    (texts : List String) (s t : String)
    (hne : texts ≠ []) (hb : ∀ x ∈ texts, isBlank x = true) :
    bulk_translate remote texts s t
      = (texts.map (fun _ => empty_response s t), []) ∧
    bulk_translate_async cfg aremote texts s t
      = (texts.map (fun _ => empty_response s t), []) :=
  ⟨bulk_translate_all_blank remote texts s t hne hb,
   bulk_translate_async_all_blank cfg aremote texts s t hne hb⟩

/-- Witness for C10 at a concrete all-blank batch with unmappable language
codes: no error is produced and no call is dispatched. -/
theorem all_blank_batch_short_circuits_witness :
    bulk_translate (fun _ => .error (.deepLException "down")) ["", "  "]
        "xx-not-a-language" "yy"
      = ((["", "  "] : List String).map
          (fun _ => empty_response "xx-not-a-language" "yy"), []) ∧
    bulk_translate_async ⟨"k:fx", 30, none⟩
        (fun _ => .error (.clientError "down")) ["", "  "]
        "xx-not-a-language" "yy"
      = ((["", "  "] : List String).map
          (fun _ => empty_response "xx-not-a-language" "yy"), []) :=
  all_blank_batch_short_circuits (fun _ => .error (.deepLException "down"))
    ⟨"k:fx", 30, none⟩ (fun _ => .error (.clientError "down")) ["", "  "]
    "xx-not-a-language" "yy" (by decide) (by decide)

/-- C5 counterexample: with an explicit endpoint override configured, the
sync vendor client is built on the override, but the async operations post to
the URL derived from the API key and ignore the override — contradicting the
claim that every operation uses the override in precedence. -/
theorem endpoint_override_ignored_by_async :
    client_server_url ⟨"secret-key", 30, some "https://example.com"⟩
      = "https://example.com" ∧
    async_post_url ⟨"secret-key", 30, some "https://example.com"⟩
      = "https://api.deepl.com/v2/translate" ∧
    async_post_url ⟨"secret-key", 30, some "https://example.com"⟩
      ≠ "https://example.com/v2/translate" ∧
    (translate_async ⟨"secret-key", 30, some "https://example.com"⟩
        (fun _ => .ok [⟨"hola", none⟩]) "Hello" "en" "es").2
      = [⟨"https://api.deepl.com/v2/translate", ["Hello"], some "EN", "ES"⟩] :=
  ⟨rfl, rfl, by decide, by rfl⟩

/-- C5 amended: the base URL is derived deterministically from the API key
(the ":fx" suffix selects the free-tier base URL, any other key the paid
tier); an explicit non-empty endpoint override takes precedence over the
derived URL in the sync vendor-client path only, while every async operation
posts to the derived base URL and ignores the override. -/
theorem endpoint_selection (cfg : TranslationConfig) :
    (is_free_api_key cfg.api_key = true →
      get_api_endpoint cfg = "https://api-free.deepl.com") ∧
    (is_free_api_key cfg.api_key = false →
      get_api_endpoint cfg = "https://api.deepl.com") ∧
    (is_free_api_key cfg.api_key = true ↔
      ∃ p, cfg.api_key.data = p ++ [':', 'f', 'x']) ∧
    ((mkDeepLTranslator cfg).base_url = get_api_endpoint cfg) ∧
    (∀ e, cfg.endpoint = some e → e ≠ "" → client_server_url cfg = e) ∧
    ((cfg.endpoint = none ∨ cfg.endpoint = some "") →
      client_server_url cfg = get_api_endpoint cfg) ∧
    (async_post_url cfg = get_api_endpoint cfg ++ "/v2/translate") ∧
    (∀ remote text s t, ∀ c ∈ (translate_async cfg remote text s t).2,
      c.url = async_post_url cfg) ∧
    (∀ remote texts s t, ∀ c ∈ (bulk_translate_async cfg remote texts s t).2,
      c.url = async_post_url cfg) := by
  refine ⟨?_, ?_, ?_, rfl, ?_, ?_, rfl,
    fun remote text s t => translate_async_calls_url cfg remote text s t,
    fun remote texts s t => bulk_translate_async_calls_url cfg remote texts s t⟩
  · intro h
    simp [get_api_endpoint, h]
  · intro h
    simp [get_api_endpoint, h]
  · rw [is_free_api_key, List.isSuffixOf_iff_suffix]
    constructor
    · rintro ⟨p, hp⟩
      exact ⟨p, hp.symm⟩
    · rintro ⟨p, hp⟩
      exact ⟨p, hp.symm⟩
  · intro e he hne
    simp [client_server_url, he, hne]
  · intro h
    rcases h with h | h <;> simp [client_server_url, h]

/-- Witness for C5 at concrete configurations: free and paid key derivation,
override honoured by the sync client URL and ignored by a dispatched async
call. -/
theorem endpoint_selection_witness :
    get_api_endpoint ⟨"abc:fx", 30, none⟩ = "https://api-free.deepl.com" ∧
    get_api_endpoint ⟨"abc", 30, none⟩ = "https://api.deepl.com" ∧
    client_server_url ⟨"abc", 30, some "https://example.com"⟩
      = "https://example.com" ∧
    client_server_url ⟨"abc", 30, none⟩ = get_api_endpoint ⟨"abc", 30, none⟩ ∧
    (⟨"https://api-free.deepl.com/v2/translate", ["Hey"], some "EN", "ES"⟩
        : HttpCall).url
      = async_post_url ⟨"abc:fx", 30, some "https://example.com"⟩ :=
  ⟨(endpoint_selection ⟨"abc:fx", 30, none⟩).1 (by decide),
   (endpoint_selection ⟨"abc", 30, none⟩).2.1 (by decide),
   (endpoint_selection ⟨"abc", 30, some "https://example.com"⟩).2.2.2.2.1
     "https://example.com" rfl (by decide),
   (endpoint_selection ⟨"abc", 30, none⟩).2.2.2.2.2.1 (Or.inl rfl),
   (endpoint_selection ⟨"abc:fx", 30, some "https://example.com"⟩).2.2.2.2.2.2.2.1
     (fun _ => .ok [⟨"hola", none⟩]) "Hey" "en" "es"
     ⟨"https://api-free.deepl.com/v2/translate", ["Hey"], some "EN", "ES"⟩
     (by decide)⟩

/-- C6: language normalization is asymmetric: the target-language block first
tries the exact supplied code and only on failure retries with the root code,
while the source-language block (when the source is not "auto") applies
root-code stripping unconditionally with no prior exact-code attempt — these
blocks are the ones used by all four translation operations. The concrete
code "en-US" exhibits the asymmetry: as target it maps to "EN-US", as source
to "EN". -/
theorem target_source_normalization_asymmetry :
    (∀ c r, map_language_code c = .ok r → map_target_code c = .ok r) ∧
    (∀ c e, map_language_code c = .error e →
      map_target_code c = map_language_code (get_root_lang_code c)) ∧
    (∀ c, c ≠ "auto" →
      map_source_code c = (map_language_code (get_root_lang_code c)).map some) ∧
    map_source_code "auto" = .ok none ∧
    (map_target_code "en-US" = .ok "EN-US" ∧
      map_source_code "en-US" = .ok (some "EN")) := by
  refine ⟨?_, ?_, ?_, by rfl, by rfl, by rfl⟩
  · intro c r h
    simp [map_target_code, h]
  · intro c e h
    simp [map_target_code, h]
  · intro c h
    simp [map_source_code, bne_iff_ne, h]

/-- Witness for C6 at concrete codes: exact target success, target fallback
to the root code, unconditional source root-stripping. -/
theorem target_source_normalization_asymmetry_witness :
    map_target_code "de" = .ok "DE" ∧
    map_target_code "fr-CA" = map_language_code (get_root_lang_code "fr-CA") ∧
    map_source_code "pt-BR"
      = (map_language_code (get_root_lang_code "pt-BR")).map some :=
  ⟨target_source_normalization_asymmetry.1 "de" "DE" (by rfl),
   target_source_normalization_asymmetry.2.1 "fr-CA"
     (.valueError "Unsupported Language") (by rfl),
   target_source_normalization_asymmetry.2.2.1 "pt-BR" (by decide)⟩

/-- C7 counterexample: for a code without a hyphen the root-code derivation
returns the code unchanged, not lower-cased: on "EN" it returns "EN" where
the claim demands "en" — observably different, since "en" is in the mapping
table and "EN" is not. -/
theorem root_code_not_lowercased :
    get_root_lang_code "EN" = "EN" ∧ ("EN" : String) ≠ "en" ∧
    ("EN" : String).data.contains '-' = false ∧
    map_language_code (get_root_lang_code "EN")
      = .error (.valueError "Unsupported Language") ∧
    map_language_code "en" = .ok "EN" :=
  ⟨by rfl, by decide, by decide, by rfl, by rfl⟩

/-- C7 amended: for a code containing a hyphen the root-code derivation
returns the lower-cased portion before the first hyphen; for a code without
a hyphen it returns the code unchanged (no lower-casing); and a code absent
from the mapping table fails with the UnsupportedLanguage error
(`ValueError('Unsupported Language')`), also after the target path's
root-code retry. -/
theorem root_code_derivation :
    (∀ a b : String, a.data.contains '-' = false →
      get_root_lang_code (a ++ "-" ++ b)
        = String.mk ((a.data).map Char.toLower)) ∧
    (∀ c : String, c.data.contains '-' = false → get_root_lang_code c = c) ∧
    (∀ c : String, supported_language_map.lookup c = none →
      map_language_code c = .error (.valueError "Unsupported Language")) ∧
    (∀ c : String, supported_language_map.lookup c = none →
      supported_language_map.lookup (get_root_lang_code c) = none →
      map_target_code c = .error (.valueError "Unsupported Language")) := by
  refine ⟨?_, ?_, ?_, ?_⟩
  · intro a b ha
    have hnotmem : '-' ∉ a.data := by
      intro hmem
      have ha' : List.elem '-' a.data = false := ha
      rw [List.elem_iff.mpr hmem] at ha'
      exact absurd ha' (by simp)
    have hdata : (a ++ "-" ++ b).data = a.data ++ '-' :: b.data := by
      rw [String.data_append, String.data_append,
        show ("-" : String).data = ['-'] from rfl, List.append_assoc]
      rfl
    have hcont : ((a ++ "-" ++ b).data).contains '-' = true := by
      rw [hdata]
      exact List.elem_iff.mpr (by simp)
    rw [get_root_lang_code, if_pos hcont, hdata,
      takeWhile_append_of_all _ _ _ _ (fun y hy => ?_) (by decide)]
    have hne : y ≠ '-' := fun hcontra => hnotmem (hcontra ▸ hy)
    simpa using hne
  · intro c h
    rw [get_root_lang_code, if_neg]
    intro hc
    rw [h] at hc
    exact absurd hc (by simp)
  · intro c h
    simp [map_language_code, h]
  · intro c h h2
    simp [map_target_code, map_language_code, h, h2]

/-- Witness for C7 at concrete codes: "zh-HANS" roots to "zh";
"xx-YY" is unmapped and its root "xx" is unmapped too, so the target path
fails with the UnsupportedLanguage error. -/
theorem root_code_derivation_witness :
    get_root_lang_code "zh-HANS" = String.mk (("zh" : String).data.map Char.toLower) ∧
    get_root_lang_code "EN" = "EN" ∧
    map_language_code "qq" = .error (.valueError "Unsupported Language") ∧
    map_target_code "xx-YY" = .error (.valueError "Unsupported Language") :=
  ⟨root_code_derivation.1 "zh" "HANS" (by decide),
   root_code_derivation.2.1 "EN" (by decide),
   root_code_derivation.2.2.1 "qq" (by decide),
   root_code_derivation.2.2.2 "xx-YY" (by decide) (by decide)⟩

/-- C8 counterexample: a whitespace-only text of 30,001 characters is longer
than 30,000 characters, yet translate and translate_async return a SUCCESS
response (the empty-input path precedes the length check), not the claimed
ERROR naming the limit. -/
theorem long_whitespace_text_success :
    30000 < (String.mk (List.replicate 30001 ' ')).length ∧
    (translate (fun _ => .error (.deepLException "down"))
        (String.mk (List.replicate 30001 ' ')) "en" "es").1.status
      = .SUCCESS ∧
    (translate_async ⟨"k", 30, none⟩ (fun _ => .error (.clientError "down"))
        (String.mk (List.replicate 30001 ' ')) "en" "es").1.status
      = .SUCCESS := by
  have hb := isBlank_replicate_space 30001
  refine ⟨?_, ?_, ?_⟩
  · rw [length_mk_replicate]
    decide
  · rw [translate, if_pos hb]
    rfl
  · rw [translate_async, if_pos hb]
    rfl

/-- C8 amended: for every text longer than 30,000 characters that is not
whitespace-only, translate and translate_async return the ERROR response
carrying the full original char_count and an error message naming the 30,000
limit, with empty translated_text (the text is never truncated into the
response) and no network call built or sent; a whitespace-only over-long text
instead takes the empty-input SUCCESS path. -/
theorem long_text_rejected (remote : ClientCall → Except PyError DeepLResult)
    (cfg : TranslationConfig)
    (aremote : HttpCall → Except PyError (List AsyncTranslation))
    (text s t : String)
    (hnb : isBlank text = false) (hlong : max_chunk_size < text.length) :
    translate remote text s t
      = (sync_error_response text s t
          (.translationError (length_error_msg text.length)), []) ∧
    translate_async cfg aremote text s t
      = (async_error_response text s t
          (.translationError (length_error_msg text.length)), []) ∧
    (sync_error_response text s t
        (.translationError (length_error_msg text.length))).status = .ERROR ∧
    (sync_error_response text s t
        (.translationError (length_error_msg text.length))).char_count
      = text.length ∧
    (sync_error_response text s t
        (.translationError (length_error_msg text.length))).translated_text
      = "" ∧
    ∃ pre post, length_error_msg text.length = pre ++ "30000" ++ post := by
  refine ⟨?_, ?_, rfl, rfl, rfl,
    "Text length (" ++ toString text.length ++ ") exceeds DeepL's maximum of ",
    " characters", ?_⟩
  · rw [translate, if_neg (by simp [hnb]), if_pos hlong]
  · rw [translate_async, if_neg (by simp [hnb]), if_pos hlong]
  · rw [length_error_msg, show toString max_chunk_size = "30000" from rfl]

/-- Witness for C8 at a concrete 30,001-character non-whitespace text. -/
theorem long_text_rejected_witness :
    translate (fun _ => .error (.deepLException "x"))
        (String.mk (List.replicate 30001 'a')) "en" "es"
      = (sync_error_response (String.mk (List.replicate 30001 'a')) "en" "es"
          (.translationError
            (length_error_msg (String.mk (List.replicate 30001 'a')).length)),
         []) ∧
    ∃ pre post,
      length_error_msg (String.mk (List.replicate 30001 'a')).length
        = pre ++ "30000" ++ post := by
  have h := long_text_rejected (fun _ => .error (.deepLException "x"))
    ⟨"k", 30, none⟩ (fun _ => .error (.clientError "x"))
    (String.mk (List.replicate 30001 'a')) "en" "es"
    isBlank_replicate_letter
    (by rw [length_mk_replicate]; decide)
  exact ⟨h.1, h.2.2.2.2.2⟩

/-- C2 counterexample: when a bulk transport failure occurs, a
whitespace-only input in the batch receives an ERROR response whose
char_count is its raw length (here 1), contradicting the claim that such an
input always gets char_count 0 and SUCCESS "including when the operation as
a whole hits a transport failure". -/
theorem blank_input_error_on_bulk_transport_failure :
    isBlank " " = true ∧
    ((bulk_translate (fun _ => .error (.deepLException "Connection failed"))
        [" ", "Hello"] "en" "es").1)[0]?
      = some (create_response "" "en" "es" 1 none
          (some "DeepL API error: Connection failed")) ∧
    (create_response "" "en" "es" 1 none
        (some "DeepL API error: Connection failed")).status = .ERROR :=
  ⟨by decide, by rfl, rfl⟩

/-- C2 amended: an empty or whitespace-only text always yields the
zero-char_count, empty-text SUCCESS response in `translate` and
`translate_async`; in the bulk operations it does so on the all-blank early
return and on the successful-dispatch path, but when the batch operation
itself fails (transport or any other batch-level fault) every position —
blank ones included — receives the ERROR response carrying the raw text
length as char_count. -/
theorem blank_input_empty_success :
    (∀ (remote : ClientCall → Except PyError DeepLResult) (text s t : String),
      isBlank text = true →
      translate remote text s t = (empty_response s t, [])) ∧
    (∀ (cfg : TranslationConfig)
        (aremote : HttpCall → Except PyError (List AsyncTranslation))
        (text s t : String),
      isBlank text = true →
      translate_async cfg aremote text s t = (empty_response s t, [])) ∧
    (∀ (remote : ClientCall → Except PyError (List DeepLResult))
        (texts : List String) (s t : String),
      texts ≠ [] → (∀ x ∈ texts, isBlank x = true) →
      bulk_translate remote texts s t
        = (texts.map (fun _ => empty_response s t), [])) ∧
    (∀ (cfg : TranslationConfig)
        (aremote : HttpCall → Except PyError (List AsyncTranslation))
        (texts : List String) (s t : String),
      texts ≠ [] → (∀ x ∈ texts, isBlank x = true) →
      bulk_translate_async cfg aremote texts s t
        = (texts.map (fun _ => empty_response s t), [])) ∧
    (∀ (remote : ClientCall → Except PyError (List DeepLResult))
        (texts : List String) (s t : String) (sm : Option String) (tm : String)
        (results : List DeepLResult),
      texts ≠ [] → valid_texts texts ≠ [] →
      map_source_code s = .ok sm → map_target_code t = .ok tm →
      remote ⟨valid_texts texts, sm, tm⟩ = .ok results →
      results.length = (valid_texts texts).length →
      ∀ (j : Nat) (tj : String), texts[j]? = some tj → isBlank tj = true →
        ((bulk_translate remote texts s t).1)[j]? = some (empty_response s t)) ∧
    (∀ (cfg : TranslationConfig)
        (aremote : HttpCall → Except PyError (List AsyncTranslation))
        (texts : List String) (s t : String) (sm : Option String) (tm : String)
        (translations : List AsyncTranslation),
      texts ≠ [] → valid_texts texts ≠ [] →
      map_source_code s = .ok sm → map_target_code t = .ok tm →
      aremote ⟨async_post_url cfg, valid_texts texts, sm, tm⟩ = .ok translations →
      translations.length = (valid_texts texts).length →
      ∀ (j : Nat) (tj : String), texts[j]? = some tj → isBlank tj = true →
        ((bulk_translate_async cfg aremote texts s t).1)[j]?
          = some (empty_response s t)) ∧
    (∀ (texts : List String) (s t : String) (sm : Option String) (tm : String)
        (e : PyError)
        (remote : ClientCall → Except PyError (List DeepLResult)),
      texts ≠ [] → valid_texts texts ≠ [] →
      map_source_code s = .ok sm → map_target_code t = .ok tm →
      remote ⟨valid_texts texts, sm, tm⟩ = .error e →
      (bulk_translate remote texts s t).1
        = texts.map (fun x => sync_error_response x s t e)) := by
  refine ⟨?_, ?_,
    fun remote texts s t hne hb => bulk_translate_all_blank remote texts s t hne hb,
    fun cfg aremote texts s t hne hb =>
      bulk_translate_async_all_blank cfg aremote texts s t hne hb,
    ?_, ?_,
    fun texts s t sm tm e remote hne hnb hs ht hr =>
      bulk_translate_remote_error remote texts s t sm tm e hne hnb hs ht hr⟩
  · intro remote text s t h
    rw [translate, if_pos h]
    rfl
  · intro cfg aremote text s t h
    rw [translate_async, if_pos h]
    rfl
  · intro remote texts s t sm tm results hne hnb hs ht hr hlen j tj hj hb
    exact ((bulk_translate_success_char remote texts s t sm tm results
      hne hnb hs ht hr hlen).2.2 j tj hj).1 hb
  · intro cfg aremote texts s t sm tm translations hne hnb hs ht hr hlen j tj hj hb
    exact ((bulk_translate_async_success_char cfg aremote texts s t sm tm
      translations hne hnb hs ht hr hlen).2.2 j tj hj).1 hb

/-- Witness for C2 at concrete inputs: a blank single text, a blank position
inside a successful batch, and the batch-failure exception path. -/
theorem blank_input_empty_success_witness :
    translate (fun _ => .error (.deepLException "x")) "   " "en" "es"
      = (empty_response "en" "es", []) ∧
    ((bulk_translate (fun _ => .ok [⟨"Uno", none⟩]) ["One", "\t"] "en" "es").1)[1]?
      = some (empty_response "en" "es") ∧
    (bulk_translate (fun _ => .error (.valueError "boom")) ["One", "\t"]
        "en" "es").1
      = (["One", "\t"] : List String).map
          (fun x => sync_error_response x "en" "es" (.valueError "boom")) :=
  ⟨blank_input_empty_success.1 (fun _ => .error (.deepLException "x"))
     "   " "en" "es" (by decide),
   blank_input_empty_success.2.2.2.2.1 (fun _ => .ok [⟨"Uno", none⟩])
     ["One", "\t"] "en" "es" (some "EN") "ES" [⟨"Uno", none⟩]
     (by decide) (by decide) (by rfl) (by rfl) (by rfl) (by rfl)
     1 "\t" (by decide) (by decide),
   blank_input_empty_success.2.2.2.2.2.2 ["One", "\t"] "en" "es"
     (some "EN") "ES" (.valueError "boom")
     (fun _ => .error (.valueError "boom"))
     (by decide) (by decide) (by rfl) (by rfl) (by rfl)⟩

/-- C3: every fault arising during a translation operation except the
configuration fault is caught at the operation boundary and folded into an
ERROR-status response (the operations are total functions into responses);
the configuration fault (missing/empty API key) is the single fault that
escapes as a raised exception when an operation is attempted, and it is
never detected at construction — `mkDeepLTranslator` accepts every
configuration unchanged. The configuration check itself is modelled from the
spec, since it lives in the host framework package. -/
theorem config_fault_propagation :
    (∀ cfg : TranslationConfig, (mkDeepLTranslator cfg).config = cfg) ∧
    (∀ (cfg : TranslationConfig)
        (remote : ClientCall → Except PyError DeepLResult) (text s t : String),
      cfg.api_key = "" →
      translate_op cfg remote text s t
        = .error (.configurationError "API key is required")) ∧
    (∀ (cfg : TranslationConfig)
        (remote : ClientCall → Except PyError (List DeepLResult))
        (texts : List String) (s t : String),
      cfg.api_key = "" →
      bulk_translate_op cfg remote texts s t
        = .error (.configurationError "API key is required")) ∧
    (∀ (cfg : TranslationConfig)
        (remote : HttpCall → Except PyError (List AsyncTranslation))
        (text s t : String),
      cfg.api_key = "" →
      translate_async_op cfg remote text s t
        = .error (.configurationError "API key is required")) ∧
    (∀ (cfg : TranslationConfig)
        (remote : HttpCall → Except PyError (List AsyncTranslation))
        (texts : List String) (s t : String),
      cfg.api_key = "" →
      bulk_translate_async_op cfg remote texts s t
        = .error (.configurationError "API key is required")) ∧
    (∀ (cfg : TranslationConfig)
        (remote : ClientCall → Except PyError DeepLResult) (text s t : String),
      cfg.api_key ≠ "" →
      translate_op cfg remote text s t = .ok (translate remote text s t)) ∧
    (∀ (cfg : TranslationConfig)
        (remote : ClientCall → Except PyError (List DeepLResult))
        (texts : List String) (s t : String),
      cfg.api_key ≠ "" →
      bulk_translate_op cfg remote texts s t
        = .ok (bulk_translate remote texts s t)) ∧
    (∀ (cfg : TranslationConfig)
        (remote : HttpCall → Except PyError (List AsyncTranslation))
        (text s t : String),
      cfg.api_key ≠ "" →
      translate_async_op cfg remote text s t
        = .ok (translate_async cfg remote text s t)) ∧
    (∀ (cfg : TranslationConfig)
        (remote : HttpCall → Except PyError (List AsyncTranslation))
        (texts : List String) (s t : String),
      cfg.api_key ≠ "" →
      bulk_translate_async_op cfg remote texts s t
        = .ok (bulk_translate_async cfg remote texts s t)) ∧
    (∀ (e : PyError) (text s t : String) (sm : Option String) (tm : String),
      isBlank text = false → text.length ≤ max_chunk_size →
      map_source_code s = .ok sm → map_target_code t = .ok tm →
      ((translate (fun _ => .error e) text s t).1).status = .ERROR) ∧
    (∀ (e : PyError) (texts : List String) (s t : String) (sm : Option String)
        (tm : String),
      texts ≠ [] → valid_texts texts ≠ [] →
      map_source_code s = .ok sm → map_target_code t = .ok tm →
      ∀ (j : Nat) (r : TranslationResponse),
        ((bulk_translate (fun _ => .error e) texts s t).1)[j]? = some r →
        r.status = .ERROR) := by
  refine ⟨fun cfg => rfl, ?_, ?_, ?_, ?_, ?_, ?_, ?_, ?_, ?_, ?_⟩
  · intro cfg remote text s t h
    rw [translate_op, require_api_key, if_pos h]
  · intro cfg remote texts s t h
    rw [bulk_translate_op, require_api_key, if_pos h]
  · intro cfg remote text s t h
    rw [translate_async_op, require_api_key, if_pos h]
  · intro cfg remote texts s t h
    rw [bulk_translate_async_op, require_api_key, if_pos h]
  · intro cfg remote text s t h
    rw [translate_op, require_api_key, if_neg h]
  · intro cfg remote texts s t h
    rw [bulk_translate_op, require_api_key, if_neg h]
  · intro cfg remote text s t h
    rw [translate_async_op, require_api_key, if_neg h]
  · intro cfg remote texts s t h
    rw [bulk_translate_async_op, require_api_key, if_neg h]
  · intro e text s t sm tm hnb hlen hs ht
    rw [translate, if_neg (by simp [hnb]), if_neg (by omega), hs]
    simp only [ht]
    rfl
  · intro e texts s t sm tm hne hnb hs ht j r hr
    rw [bulk_translate_remote_error (fun _ => .error e) texts s t sm tm e
      hne hnb hs ht rfl, List.getElem?_map] at hr
    cases htj : texts[j]? with
    | none => rw [htj] at hr; exact absurd hr (by simp)
    | some tj =>
      rw [htj] at hr
      simp only [Option.map_some'] at hr
      rw [← Option.some_inj.mp hr]
      rfl

/-- Witness for C3 at concrete configurations and inputs: the empty key
raises the configuration fault, a non-empty key returns a response, and a
vendor-library fault is folded into an ERROR response. -/
theorem config_fault_propagation_witness :
    (mkDeepLTranslator ⟨"", 30, none⟩).config = (⟨"", 30, none⟩ : TranslationConfig) ∧
    translate_op ⟨"", 30, none⟩ (fun _ => .ok ⟨"Hola", none⟩) "Hello" "en" "es"
      = .error (.configurationError "API key is required") ∧
    translate_op ⟨"key", 30, none⟩ (fun _ => .ok ⟨"Hola", none⟩) "Hello" "en" "es"
      = .ok (translate (fun _ => .ok ⟨"Hola", none⟩) "Hello" "en" "es") ∧
    ((translate (fun _ => .error (.deepLException "quota exceeded"))
        "Hello" "en" "es").1).status = .ERROR :=
  ⟨config_fault_propagation.1 ⟨"", 30, none⟩,
   config_fault_propagation.2.1 ⟨"", 30, none⟩ (fun _ => .ok ⟨"Hola", none⟩)
     "Hello" "en" "es" rfl,
   config_fault_propagation.2.2.2.2.2.1 ⟨"key", 30, none⟩
     (fun _ => .ok ⟨"Hola", none⟩) "Hello" "en" "es" (by decide),
   config_fault_propagation.2.2.2.2.2.2.2.2.2.1 (.deepLException "quota exceeded")
     "Hello" "en" "es" (some "EN") "ES" (by decide) (by decide) (by rfl) (by rfl)⟩

/-- C4 counterexample: for a batch whose texts are all empty (N = M), the
operation makes zero network calls, not the claimed exactly one call
carrying the N−M = 0 filtered texts. -/
theorem all_blank_batch_makes_no_call :
    (bulk_translate (fun _ => .ok []) [""] "en" "es").2 = [] ∧
    (bulk_translate (fun _ => .ok []) [""] "en" "es").1
      = [empty_response "en" "es"] :=
  ⟨by rfl, by rfl⟩

/-- C4 amended: for a batch of N texts of which M are empty or
whitespace-only, provided at least one text is non-blank and the source and
target codes map successfully, `bulk_translate` and `bulk_translate_async`
dispatch exactly one network call carrying exactly the N−M non-blank texts in
their original relative order (whatever the call's outcome); when the call
succeeds with one result per sent text, the results are scattered back to
their original indices (the text at rank k among the non-blank inputs gets
result k) and the M blank positions are filled with empty-text SUCCESS
responses of char_count 0. An all-blank batch instead makes zero network
calls and returns one empty SUCCESS response per input. -/
theorem bulk_single_call_and_scatter :
    (∀ (remote : ClientCall → Except PyError (List DeepLResult))
        (texts : List String) (s t : String) (sm : Option String) (tm : String),
      texts ≠ [] → valid_texts texts ≠ [] →
      map_source_code s = .ok sm → map_target_code t = .ok tm →
      (bulk_translate remote texts s t).2
        = [⟨texts.filter (fun x => !(isBlank x)), sm, tm⟩]) ∧
    (∀ (remote : ClientCall → Except PyError (List DeepLResult))
        (texts : List String) (s t : String) (sm : Option String) (tm : String)
        (results : List DeepLResult),
      texts ≠ [] → valid_texts texts ≠ [] →
      map_source_code s = .ok sm → map_target_code t = .ok tm →
      remote ⟨valid_texts texts, sm, tm⟩ = .ok results →
      results.length = (valid_texts texts).length →
      ∀ (j : Nat) (tj : String), texts[j]? = some tj →
        (isBlank tj = true →
          ((bulk_translate remote texts s t).1)[j]? = some (empty_response s t)) ∧
        (isBlank tj = false →
          ∃ rr, results[valid_rank texts j]? = some rr ∧
            ((bulk_translate remote texts s t).1)[j]?
              = some (mk_sync_success rr tj s t))) ∧
    (∀ (remote : ClientCall → Except PyError (List DeepLResult))
        (texts : List String) (s t : String),
      texts ≠ [] → (∀ x ∈ texts, isBlank x = true) →
      (bulk_translate remote texts s t).2 = []) ∧
    (∀ (cfg : TranslationConfig)
        (aremote : HttpCall → Except PyError (List AsyncTranslation))
        (texts : List String) (s t : String) (sm : Option String) (tm : String),
      texts ≠ [] → valid_texts texts ≠ [] →
      map_source_code s = .ok sm → map_target_code t = .ok tm →
      (bulk_translate_async cfg aremote texts s t).2
        = [⟨async_post_url cfg, texts.filter (fun x => !(isBlank x)), sm, tm⟩]) ∧
    (∀ (cfg : TranslationConfig)
        (aremote : HttpCall → Except PyError (List AsyncTranslation))
        (texts : List String) (s t : String) (sm : Option String) (tm : String)
        (translations : List AsyncTranslation),
      texts ≠ [] → valid_texts texts ≠ [] →
      map_source_code s = .ok sm → map_target_code t = .ok tm →
      aremote ⟨async_post_url cfg, valid_texts texts, sm, tm⟩ = .ok translations →
      translations.length = (valid_texts texts).length →
      ∀ (j : Nat) (tj : String), texts[j]? = some tj →
        (isBlank tj = true →
          ((bulk_translate_async cfg aremote texts s t).1)[j]?
            = some (empty_response s t)) ∧
        (isBlank tj = false →
          ∃ rr, translations[valid_rank texts j]? = some rr ∧
            ((bulk_translate_async cfg aremote texts s t).1)[j]?
              = some (mk_async_success rr tj s t))) ∧
    (∀ (cfg : TranslationConfig)
        (aremote : HttpCall → Except PyError (List AsyncTranslation))
        (texts : List String) (s t : String),
      texts ≠ [] → (∀ x ∈ texts, isBlank x = true) →
      (bulk_translate_async cfg aremote texts s t).2 = []) := by
  refine ⟨?_, ?_, ?_, ?_, ?_, ?_⟩
  · intro remote texts s t sm tm hne hnb hs ht
    rw [bulk_translate_calls remote texts s t sm tm hne hnb hs ht,
      valid_texts_eq_filter]
  · intro remote texts s t sm tm results hne hnb hs ht hr hlen
    exact (bulk_translate_success_char remote texts s t sm tm results
      hne hnb hs ht hr hlen).2.2
  · intro remote texts s t hne hb
    rw [bulk_translate_all_blank remote texts s t hne hb]
  · intro cfg aremote texts s t sm tm hne hnb hs ht
    rw [bulk_translate_async_calls cfg aremote texts s t sm tm hne hnb hs ht,
      valid_texts_eq_filter]
  · intro cfg aremote texts s t sm tm translations hne hnb hs ht hr hlen
    exact (bulk_translate_async_success_char cfg aremote texts s t sm tm
      translations hne hnb hs ht hr hlen).2.2
  · intro cfg aremote texts s t hne hb
    rw [bulk_translate_async_all_blank cfg aremote texts s t hne hb]

/-- Witness for C4 at a concrete batch ["One", "", "Two", " "]: one call
carrying exactly ["One", "Two"], blank positions filled empty, non-blank
positions receiving the results at their ranks. -/
theorem bulk_single_call_and_scatter_witness :
    (bulk_translate (fun _ => .ok [⟨"Uno", none⟩, ⟨"Dos", none⟩])
        ["One", "", "Two", " "] "en" "es").2
      = [⟨(["One", "", "Two", " "] : List String).filter
            (fun x => !(isBlank x)), some "EN", "ES"⟩] ∧
    ((bulk_translate (fun _ => .ok [⟨"Uno", none⟩, ⟨"Dos", none⟩])
        ["One", "", "Two", " "] "en" "es").1)[3]?
      = some (empty_response "en" "es") ∧
    (∃ rr, ([⟨"Uno", none⟩, ⟨"Dos", none⟩] :
          List DeepLResult)[valid_rank ["One", "", "Two", " "] 2]? = some rr ∧
      ((bulk_translate (fun _ => .ok [⟨"Uno", none⟩, ⟨"Dos", none⟩])
          ["One", "", "Two", " "] "en" "es").1)[2]?
        = some (mk_sync_success rr "Two" "en" "es")) ∧
    (bulk_translate (fun _ => .ok ([] : List DeepLResult)) ["", "\t"]
        "en" "es").2 = [] :=
  ⟨bulk_single_call_and_scatter.1 (fun _ => .ok [⟨"Uno", none⟩, ⟨"Dos", none⟩])
     ["One", "", "Two", " "] "en" "es" (some "EN") "ES"
     (by decide) (by decide) (by rfl) (by rfl),
   ((bulk_single_call_and_scatter.2.1
      (fun _ => .ok [⟨"Uno", none⟩, ⟨"Dos", none⟩])
      ["One", "", "Two", " "] "en" "es" (some "EN") "ES"
      [⟨"Uno", none⟩, ⟨"Dos", none⟩]
      (by decide) (by decide) (by rfl) (by rfl) (by rfl) (by rfl))
      3 " " (by decide)).1 (by decide),
   ((bulk_single_call_and_scatter.2.1
      (fun _ => .ok [⟨"Uno", none⟩, ⟨"Dos", none⟩])
      ["One", "", "Two", " "] "en" "es" (some "EN") "ES"
      [⟨"Uno", none⟩, ⟨"Dos", none⟩]
      (by decide) (by decide) (by rfl) (by rfl) (by rfl) (by rfl))
      2 "Two" (by decide)).2 (by decide),
   bulk_single_call_and_scatter.2.2.1
     (fun _ => .ok ([] : List DeepLResult)) ["", "\t"] "en" "es"
     (by decide) (by decide)⟩

/-- C9: `get_supported_languages` and `get_usage_info` never raise: both
always return an `.ok` value, and on every remote failure they return,
respectively, the fixed fallback source/target lists embedded in the adapter
and the empty result set. -/
theorem aux_reads_never_raise :
    (∀ r : Except PyError (List String × List String),
      ∃ v, get_supported_languages r = .ok v) ∧
    (∀ e : PyError, get_supported_languages (.error e) = .ok fallback_languages) ∧
    (∀ r : Except PyError Usage, ∃ v, get_usage_info r = .ok v) ∧
    (∀ e : PyError, get_usage_info (.error e) = .ok none) := by
  refine ⟨fun r => ?_, fun e => rfl, fun r => ?_, fun e => rfl⟩
  · cases r with
    | ok v => exact ⟨_, rfl⟩
    | error e => exact ⟨_, rfl⟩
  · cases r with
    | ok v => exact ⟨_, rfl⟩
    | error e => exact ⟨_, rfl⟩

end DeepL
